import Mathlib

/-!
Verification of the rocket powered landing model
(`AerialNavigation/rocket_powered_landing/rocket_powered_landing.py`).

The state vector has dimension 14: mass `x 0`, position `x 1 … x 3`,
velocity `x 4 … x 6`, scalar-first attitude quaternion `x 7 … x 10`,
body angular rate `x 11 … x 13`.  The control vector `u : Fin 3 → ℝ` is
the body-frame thrust.  Python floats are modelled as real numbers.

The development has three layers:

* a small symbolic expression language `RExpr` with an evaluator, a
  syntactic partial-derivative operator for state and control
  coordinates, and a soundness theorem connecting it to `HasDerivAt`;
  it is used to verify that the hand-written Jacobians `A_func` and
  `B_func` of the dynamics are exact;
* direct translations of the model functions (`f_func`, `A_func`,
  `B_func`, `dir_cosine`, `omega`, `euler_to_quat`,
  `initialize_trajectory`, the constants set in `__init__`, the random
  initial state, and the `Integrator` seed buffer);
* a syntactic constraint language mirroring the cvxpy constraint list
  built by `get_constraints`, together with its satisfaction semantics.
-/

set_option maxHeartbeats 1000000

namespace RocketLanding

/-! ### Pointwise evaluation lemmas for vector literals -/

section VecApply

variable {α : Type*}

@[simp] theorem vec3_mk0 (a0 a1 a2 : α) (h : (0:ℕ) < 3) :
    ![a0, a1, a2] ⟨0, h⟩ = a0 := rfl

@[simp] theorem vec3_mk1 (a0 a1 a2 : α) (h : (1:ℕ) < 3) :
    ![a0, a1, a2] ⟨1, h⟩ = a1 := rfl

@[simp] theorem vec3_mk2 (a0 a1 a2 : α) (h : (2:ℕ) < 3) :
    ![a0, a1, a2] ⟨2, h⟩ = a2 := rfl

@[simp] theorem vec4_mk0 (a0 a1 a2 a3 : α) (h : (0:ℕ) < 4) :
    ![a0, a1, a2, a3] ⟨0, h⟩ = a0 := rfl

@[simp] theorem vec4_mk1 (a0 a1 a2 a3 : α) (h : (1:ℕ) < 4) :
    ![a0, a1, a2, a3] ⟨1, h⟩ = a1 := rfl

@[simp] theorem vec4_mk2 (a0 a1 a2 a3 : α) (h : (2:ℕ) < 4) :
    ![a0, a1, a2, a3] ⟨2, h⟩ = a2 := rfl

@[simp] theorem vec4_mk3 (a0 a1 a2 a3 : α) (h : (3:ℕ) < 4) :
    ![a0, a1, a2, a3] ⟨3, h⟩ = a3 := rfl

@[simp] theorem vec14_mk0 (a0 a1 a2 a3 a4 a5 a6 a7 a8 a9 a10 a11 a12 a13 : α) (h : (0:ℕ) < 14) :
    ![a0, a1, a2, a3, a4, a5, a6, a7, a8, a9, a10, a11, a12, a13] ⟨0, h⟩ = a0 := rfl

@[simp] theorem vec14_mk1 (a0 a1 a2 a3 a4 a5 a6 a7 a8 a9 a10 a11 a12 a13 : α) (h : (1:ℕ) < 14) :
    ![a0, a1, a2, a3, a4, a5, a6, a7, a8, a9, a10, a11, a12, a13] ⟨1, h⟩ = a1 := rfl

@[simp] theorem vec14_mk2 (a0 a1 a2 a3 a4 a5 a6 a7 a8 a9 a10 a11 a12 a13 : α) (h : (2:ℕ) < 14) :
    ![a0, a1, a2, a3, a4, a5, a6, a7, a8, a9, a10, a11, a12, a13] ⟨2, h⟩ = a2 := rfl

@[simp] theorem vec14_mk3 (a0 a1 a2 a3 a4 a5 a6 a7 a8 a9 a10 a11 a12 a13 : α) (h : (3:ℕ) < 14) :
    ![a0, a1, a2, a3, a4, a5, a6, a7, a8, a9, a10, a11, a12, a13] ⟨3, h⟩ = a3 := rfl

@[simp] theorem vec14_mk4 (a0 a1 a2 a3 a4 a5 a6 a7 a8 a9 a10 a11 a12 a13 : α) (h : (4:ℕ) < 14) :
    ![a0, a1, a2, a3, a4, a5, a6, a7, a8, a9, a10, a11, a12, a13] ⟨4, h⟩ = a4 := rfl

@[simp] theorem vec14_mk5 (a0 a1 a2 a3 a4 a5 a6 a7 a8 a9 a10 a11 a12 a13 : α) (h : (5:ℕ) < 14) :
    ![a0, a1, a2, a3, a4, a5, a6, a7, a8, a9, a10, a11, a12, a13] ⟨5, h⟩ = a5 := rfl

@[simp] theorem vec14_mk6 (a0 a1 a2 a3 a4 a5 a6 a7 a8 a9 a10 a11 a12 a13 : α) (h : (6:ℕ) < 14) :
    ![a0, a1, a2, a3, a4, a5, a6, a7, a8, a9, a10, a11, a12, a13] ⟨6, h⟩ = a6 := rfl

@[simp] theorem vec14_mk7 (a0 a1 a2 a3 a4 a5 a6 a7 a8 a9 a10 a11 a12 a13 : α) (h : (7:ℕ) < 14) :
    ![a0, a1, a2, a3, a4, a5, a6, a7, a8, a9, a10, a11, a12, a13] ⟨7, h⟩ = a7 := rfl

@[simp] theorem vec14_mk8 (a0 a1 a2 a3 a4 a5 a6 a7 a8 a9 a10 a11 a12 a13 : α) (h : (8:ℕ) < 14) :
    ![a0, a1, a2, a3, a4, a5, a6, a7, a8, a9, a10, a11, a12, a13] ⟨8, h⟩ = a8 := rfl

@[simp] theorem vec14_mk9 (a0 a1 a2 a3 a4 a5 a6 a7 a8 a9 a10 a11 a12 a13 : α) (h : (9:ℕ) < 14) :
    ![a0, a1, a2, a3, a4, a5, a6, a7, a8, a9, a10, a11, a12, a13] ⟨9, h⟩ = a9 := rfl

@[simp] theorem vec14_mk10 (a0 a1 a2 a3 a4 a5 a6 a7 a8 a9 a10 a11 a12 a13 : α) (h : (10:ℕ) < 14) :
    ![a0, a1, a2, a3, a4, a5, a6, a7, a8, a9, a10, a11, a12, a13] ⟨10, h⟩ = a10 := rfl

@[simp] theorem vec14_mk11 (a0 a1 a2 a3 a4 a5 a6 a7 a8 a9 a10 a11 a12 a13 : α) (h : (11:ℕ) < 14) :
    ![a0, a1, a2, a3, a4, a5, a6, a7, a8, a9, a10, a11, a12, a13] ⟨11, h⟩ = a11 := rfl

@[simp] theorem vec14_mk12 (a0 a1 a2 a3 a4 a5 a6 a7 a8 a9 a10 a11 a12 a13 : α) (h : (12:ℕ) < 14) :
    ![a0, a1, a2, a3, a4, a5, a6, a7, a8, a9, a10, a11, a12, a13] ⟨12, h⟩ = a12 := rfl

@[simp] theorem vec14_mk13 (a0 a1 a2 a3 a4 a5 a6 a7 a8 a9 a10 a11 a12 a13 : α) (h : (13:ℕ) < 14) :
    ![a0, a1, a2, a3, a4, a5, a6, a7, a8, a9, a10, a11, a12, a13] ⟨13, h⟩ = a13 := rfl

@[simp] theorem vec3_c0 (a0 a1 a2 : α) :
    ![a0, a1, a2] (0 : Fin 3) = a0 := rfl

@[simp] theorem vec3_c1 (a0 a1 a2 : α) :
    ![a0, a1, a2] (1 : Fin 3) = a1 := rfl

@[simp] theorem vec3_c2 (a0 a1 a2 : α) :
    ![a0, a1, a2] (2 : Fin 3) = a2 := rfl

@[simp] theorem vec4_c0 (a0 a1 a2 a3 : α) :
    ![a0, a1, a2, a3] (0 : Fin 4) = a0 := rfl

@[simp] theorem vec4_c1 (a0 a1 a2 a3 : α) :
    ![a0, a1, a2, a3] (1 : Fin 4) = a1 := rfl

@[simp] theorem vec4_c2 (a0 a1 a2 a3 : α) :
    ![a0, a1, a2, a3] (2 : Fin 4) = a2 := rfl

@[simp] theorem vec4_c3 (a0 a1 a2 a3 : α) :
    ![a0, a1, a2, a3] (3 : Fin 4) = a3 := rfl

@[simp] theorem vec14_c0 (a0 a1 a2 a3 a4 a5 a6 a7 a8 a9 a10 a11 a12 a13 : α) :
    ![a0, a1, a2, a3, a4, a5, a6, a7, a8, a9, a10, a11, a12, a13] (0 : Fin 14) = a0 := rfl

@[simp] theorem vec14_c1 (a0 a1 a2 a3 a4 a5 a6 a7 a8 a9 a10 a11 a12 a13 : α) :
    ![a0, a1, a2, a3, a4, a5, a6, a7, a8, a9, a10, a11, a12, a13] (1 : Fin 14) = a1 := rfl

@[simp] theorem vec14_c2 (a0 a1 a2 a3 a4 a5 a6 a7 a8 a9 a10 a11 a12 a13 : α) :
    ![a0, a1, a2, a3, a4, a5, a6, a7, a8, a9, a10, a11, a12, a13] (2 : Fin 14) = a2 := rfl

@[simp] theorem vec14_c3 (a0 a1 a2 a3 a4 a5 a6 a7 a8 a9 a10 a11 a12 a13 : α) :
    ![a0, a1, a2, a3, a4, a5, a6, a7, a8, a9, a10, a11, a12, a13] (3 : Fin 14) = a3 := rfl

@[simp] theorem vec14_c4 (a0 a1 a2 a3 a4 a5 a6 a7 a8 a9 a10 a11 a12 a13 : α) :
    ![a0, a1, a2, a3, a4, a5, a6, a7, a8, a9, a10, a11, a12, a13] (4 : Fin 14) = a4 := rfl

@[simp] theorem vec14_c5 (a0 a1 a2 a3 a4 a5 a6 a7 a8 a9 a10 a11 a12 a13 : α) :
    ![a0, a1, a2, a3, a4, a5, a6, a7, a8, a9, a10, a11, a12, a13] (5 : Fin 14) = a5 := rfl

@[simp] theorem vec14_c6 (a0 a1 a2 a3 a4 a5 a6 a7 a8 a9 a10 a11 a12 a13 : α) :
    ![a0, a1, a2, a3, a4, a5, a6, a7, a8, a9, a10, a11, a12, a13] (6 : Fin 14) = a6 := rfl

@[simp] theorem vec14_c7 (a0 a1 a2 a3 a4 a5 a6 a7 a8 a9 a10 a11 a12 a13 : α) :
    ![a0, a1, a2, a3, a4, a5, a6, a7, a8, a9, a10, a11, a12, a13] (7 : Fin 14) = a7 := rfl

@[simp] theorem vec14_c8 (a0 a1 a2 a3 a4 a5 a6 a7 a8 a9 a10 a11 a12 a13 : α) :
    ![a0, a1, a2, a3, a4, a5, a6, a7, a8, a9, a10, a11, a12, a13] (8 : Fin 14) = a8 := rfl

@[simp] theorem vec14_c9 (a0 a1 a2 a3 a4 a5 a6 a7 a8 a9 a10 a11 a12 a13 : α) :
    ![a0, a1, a2, a3, a4, a5, a6, a7, a8, a9, a10, a11, a12, a13] (9 : Fin 14) = a9 := rfl

@[simp] theorem vec14_c10 (a0 a1 a2 a3 a4 a5 a6 a7 a8 a9 a10 a11 a12 a13 : α) :
    ![a0, a1, a2, a3, a4, a5, a6, a7, a8, a9, a10, a11, a12, a13] (10 : Fin 14) = a10 := rfl

@[simp] theorem vec14_c11 (a0 a1 a2 a3 a4 a5 a6 a7 a8 a9 a10 a11 a12 a13 : α) :
    ![a0, a1, a2, a3, a4, a5, a6, a7, a8, a9, a10, a11, a12, a13] (11 : Fin 14) = a11 := rfl

@[simp] theorem vec14_c12 (a0 a1 a2 a3 a4 a5 a6 a7 a8 a9 a10 a11 a12 a13 : α) :
    ![a0, a1, a2, a3, a4, a5, a6, a7, a8, a9, a10, a11, a12, a13] (12 : Fin 14) = a12 := rfl

@[simp] theorem vec14_c13 (a0 a1 a2 a3 a4 a5 a6 a7 a8 a9 a10 a11 a12 a13 : α) :
    ![a0, a1, a2, a3, a4, a5, a6, a7, a8, a9, a10, a11, a12, a13] (13 : Fin 14) = a13 := rfl

end VecApply

/-! ### A symbolic expression language over the 14 state and 3 control coordinates

Expressions are built from real constants, state variables `xv i`,
control variables `uv i`, field operations, squaring and the real
square root.  `eval` gives the value at a point, `dX j` and `dU j` are
syntactic partial derivatives, and `Good` collects the conditions
(nonzero divisors, nonzero square-root arguments) under which the
syntactic derivative is the true one. -/

inductive RExpr : Type
  | c : ℝ → RExpr
  | xv : Fin 14 → RExpr
  | uv : Fin 3 → RExpr
  | add : RExpr → RExpr → RExpr
  | sub : RExpr → RExpr → RExpr
  | neg : RExpr → RExpr
  | mul : RExpr → RExpr → RExpr
  | div : RExpr → RExpr → RExpr
  | sq : RExpr → RExpr
  | sqrtE : RExpr → RExpr

instance : Add RExpr := ⟨RExpr.add⟩

instance : Sub RExpr := ⟨RExpr.sub⟩

instance : Mul RExpr := ⟨RExpr.mul⟩

instance : Neg RExpr := ⟨RExpr.neg⟩

instance : Div RExpr := ⟨RExpr.div⟩

@[simp] theorem RExpr.add_def (a b : RExpr) : a + b = RExpr.add a b := rfl

@[simp] theorem RExpr.sub_def (a b : RExpr) : a - b = RExpr.sub a b := rfl

@[simp] theorem RExpr.mul_def (a b : RExpr) : a * b = RExpr.mul a b := rfl

@[simp] theorem RExpr.neg_def (a : RExpr) : -a = RExpr.neg a := rfl

@[simp] theorem RExpr.div_def (a b : RExpr) : a / b = RExpr.div a b := rfl

noncomputable def eval (x : Fin 14 → ℝ) (u : Fin 3 → ℝ) : RExpr → ℝ
  | .c r => r
  | .xv i => x i
  | .uv i => u i
  | .add a b => eval x u a + eval x u b
  | .sub a b => eval x u a - eval x u b
  | .neg a => -eval x u a
  | .mul a b => eval x u a * eval x u b
  | .div a b => eval x u a / eval x u b
  | .sq a => eval x u a ^ 2
  | .sqrtE a => Real.sqrt (eval x u a)

section EvalSimp

variable (x : Fin 14 → ℝ) (u : Fin 3 → ℝ)

@[simp] theorem eval_c (r : ℝ) : eval x u (.c r) = r := rfl

@[simp] theorem eval_xv (i : Fin 14) : eval x u (.xv i) = x i := rfl

@[simp] theorem eval_uv (i : Fin 3) : eval x u (.uv i) = u i := rfl

@[simp] theorem eval_add (a b : RExpr) : eval x u (.add a b) = eval x u a + eval x u b := rfl

@[simp] theorem eval_sub (a b : RExpr) : eval x u (.sub a b) = eval x u a - eval x u b := rfl

@[simp] theorem eval_neg (a : RExpr) : eval x u (.neg a) = -eval x u a := rfl

@[simp] theorem eval_mul (a b : RExpr) : eval x u (.mul a b) = eval x u a * eval x u b := rfl

@[simp] theorem eval_div (a b : RExpr) : eval x u (.div a b) = eval x u a / eval x u b := rfl

@[simp] theorem eval_sq (a : RExpr) : eval x u (.sq a) = eval x u a ^ 2 := rfl

@[simp] theorem eval_sqrtE (a : RExpr) : eval x u (.sqrtE a) = Real.sqrt (eval x u a) := rfl

end EvalSimp

/-- Syntactic partial derivative with respect to state coordinate `j`. -/
def dX (j : Fin 14) : RExpr → RExpr
  | .c _ => .c 0
  | .xv i => .c (if i = j then 1 else 0)
  | .uv _ => .c 0
  | .add a b => .add (dX j a) (dX j b)
  | .sub a b => .sub (dX j a) (dX j b)
  | .neg a => .neg (dX j a)
  | .mul a b => .add (.mul (dX j a) b) (.mul a (dX j b))
  | .div a b => .div (.sub (.mul (dX j a) b) (.mul a (dX j b))) (.sq b)
  | .sq a => .mul (.mul (.c 2) a) (dX j a)
  | .sqrtE a => .div (dX j a) (.mul (.c 2) (.sqrtE a))

/-- Syntactic partial derivative with respect to control coordinate `j`. -/
def dU (j : Fin 3) : RExpr → RExpr
  | .c _ => .c 0
  | .xv _ => .c 0
  | .uv i => .c (if i = j then 1 else 0)
  | .add a b => .add (dU j a) (dU j b)
  | .sub a b => .sub (dU j a) (dU j b)
  | .neg a => .neg (dU j a)
  | .mul a b => .add (.mul (dU j a) b) (.mul a (dU j b))
  | .div a b => .div (.sub (.mul (dU j a) b) (.mul a (dU j b))) (.sq b)
  | .sq a => .mul (.mul (.c 2) a) (dU j a)
  | .sqrtE a => .div (dU j a) (.mul (.c 2) (.sqrtE a))

section DXSimp

variable (j : Fin 14)

@[simp] theorem dX_c (r : ℝ) : dX j (.c r) = .c 0 := rfl

@[simp] theorem dX_xv (i : Fin 14) : dX j (.xv i) = .c (if i = j then 1 else 0) := rfl

@[simp] theorem dX_uv (i : Fin 3) : dX j (.uv i) = .c 0 := rfl

@[simp] theorem dX_add (a b : RExpr) : dX j (.add a b) = .add (dX j a) (dX j b) := rfl

@[simp] theorem dX_sub (a b : RExpr) : dX j (.sub a b) = .sub (dX j a) (dX j b) := rfl

@[simp] theorem dX_neg (a : RExpr) : dX j (.neg a) = .neg (dX j a) := rfl

@[simp] theorem dX_mul (a b : RExpr) :
    dX j (.mul a b) = .add (.mul (dX j a) b) (.mul a (dX j b)) := rfl

@[simp] theorem dX_div (a b : RExpr) :
    dX j (.div a b) = .div (.sub (.mul (dX j a) b) (.mul a (dX j b))) (.sq b) := rfl

@[simp] theorem dX_sq (a : RExpr) : dX j (.sq a) = .mul (.mul (.c 2) a) (dX j a) := rfl

@[simp] theorem dX_sqrtE (a : RExpr) :
    dX j (.sqrtE a) = .div (dX j a) (.mul (.c 2) (.sqrtE a)) := rfl

end DXSimp

section DUSimp

variable (j : Fin 3)

@[simp] theorem dU_c (r : ℝ) : dU j (.c r) = .c 0 := rfl

@[simp] theorem dU_xv (i : Fin 14) : dU j (.xv i) = .c 0 := rfl

@[simp] theorem dU_uv (i : Fin 3) : dU j (.uv i) = .c (if i = j then 1 else 0) := rfl

@[simp] theorem dU_add (a b : RExpr) : dU j (.add a b) = .add (dU j a) (dU j b) := rfl

@[simp] theorem dU_sub (a b : RExpr) : dU j (.sub a b) = .sub (dU j a) (dU j b) := rfl

@[simp] theorem dU_neg (a : RExpr) : dU j (.neg a) = .neg (dU j a) := rfl

@[simp] theorem dU_mul (a b : RExpr) :
    dU j (.mul a b) = .add (.mul (dU j a) b) (.mul a (dU j b)) := rfl

@[simp] theorem dU_div (a b : RExpr) :
    dU j (.div a b) = .div (.sub (.mul (dU j a) b) (.mul a (dU j b))) (.sq b) := rfl

@[simp] theorem dU_sq (a : RExpr) : dU j (.sq a) = .mul (.mul (.c 2) a) (dU j a) := rfl

@[simp] theorem dU_sqrtE (a : RExpr) :
    dU j (.sqrtE a) = .div (dU j a) (.mul (.c 2) (.sqrtE a)) := rfl

end DUSimp

/-- Side conditions at the point `(x, u)` under which the syntactic
derivative of an expression is its true derivative: every divisor is
nonzero and every square-root argument is nonzero. -/
def Good (x : Fin 14 → ℝ) (u : Fin 3 → ℝ) : RExpr → Prop
  | .c _ => True
  | .xv _ => True
  | .uv _ => True
  | .add a b => Good x u a ∧ Good x u b
  | .sub a b => Good x u a ∧ Good x u b
  | .neg a => Good x u a
  | .mul a b => Good x u a ∧ Good x u b
  | .div a b => Good x u a ∧ Good x u b ∧ eval x u b ≠ 0
  | .sq a => Good x u a
  | .sqrtE a => Good x u a ∧ eval x u a ≠ 0

/-- Soundness of `dX`: at a point where the expression is `Good`, the
function obtained by varying state coordinate `j` has the value of the
syntactic partial derivative as its derivative. -/
theorem hasDerivAt_evalX (x : Fin 14 → ℝ) (u : Fin 3 → ℝ) (j : Fin 14) (e : RExpr)
    (hg : Good x u e) :
    HasDerivAt (fun s => eval (Function.update x j s) u e) (eval x u (dX j e)) (x j) := by
  induction e with
  | c r => simpa [eval, dX] using hasDerivAt_const (x j) r
  | xv i =>
      rcases eq_or_ne i j with h | h
      · subst h
        simpa [eval, dX] using hasDerivAt_id (x i)
      · simpa [eval, dX, h, Function.update_noteq h] using hasDerivAt_const (x j) (x i)
  | uv i => simpa [eval, dX] using hasDerivAt_const (x j) (u i)
  | add a b iha ihb =>
      simp only [Good] at hg
      simpa [eval, dX] using (iha hg.1).add (ihb hg.2)
  | sub a b iha ihb =>
      simp only [Good] at hg
      simpa [eval, dX] using (iha hg.1).sub (ihb hg.2)
  | neg a iha =>
      simp only [Good] at hg
      simpa [eval, dX] using (iha hg).neg
  | mul a b iha ihb =>
      simp only [Good] at hg
      simpa [eval, dX, Function.update_eq_self] using (iha hg.1).mul (ihb hg.2)
  | div a b iha ihb =>
      simp only [Good] at hg
      have h := (iha hg.1).div (ihb hg.2.1)
        (by simpa [Function.update_eq_self] using hg.2.2)
      simpa [eval, dX, Function.update_eq_self] using h
  | sq a iha =>
      simp only [Good] at hg
      have h := (iha hg).pow 2
      simp only [eval, dX, Function.update_eq_self] at h ⊢
      convert h using 1
      ring
  | sqrtE a iha =>
      simp only [Good] at hg
      have h := (iha hg.1).sqrt (by simpa [Function.update_eq_self] using hg.2)
      simpa [eval, dX, Function.update_eq_self] using h

/-- Soundness of `dU`: the control-coordinate analogue of
`hasDerivAt_evalX`. -/
theorem hasDerivAt_evalU (x : Fin 14 → ℝ) (u : Fin 3 → ℝ) (j : Fin 3) (e : RExpr)
    (hg : Good x u e) :
    HasDerivAt (fun s => eval x (Function.update u j s) e) (eval x u (dU j e)) (u j) := by
  induction e with
  | c r => simpa [eval, dU] using hasDerivAt_const (u j) r
  | xv i => simpa [eval, dU] using hasDerivAt_const (u j) (x i)
  | uv i =>
      rcases eq_or_ne i j with h | h
      · subst h
        simpa [eval, dU] using hasDerivAt_id (u i)
      · simpa [eval, dU, h, Function.update_noteq h] using hasDerivAt_const (u j) (u i)
  | add a b iha ihb =>
      simp only [Good] at hg
      simpa [eval, dU] using (iha hg.1).add (ihb hg.2)
  | sub a b iha ihb =>
      simp only [Good] at hg
      simpa [eval, dU] using (iha hg.1).sub (ihb hg.2)
  | neg a iha =>
      simp only [Good] at hg
      simpa [eval, dU] using (iha hg).neg
  | mul a b iha ihb =>
      simp only [Good] at hg
      simpa [eval, dU, Function.update_eq_self] using (iha hg.1).mul (ihb hg.2)
  | div a b iha ihb =>
      simp only [Good] at hg
      have h := (iha hg.1).div (ihb hg.2.1)
        (by simpa [Function.update_eq_self] using hg.2.2)
      simpa [eval, dU, Function.update_eq_self] using h
  | sq a iha =>
      simp only [Good] at hg
      have h := (iha hg).pow 2
      simp only [eval, dU, Function.update_eq_self] at h ⊢
      convert h using 1
      ring
  | sqrtE a iha =>
      simp only [Good] at hg
      have h := (iha hg.1).sqrt (by simpa [Function.update_eq_self] using hg.2)
      simpa [eval, dU, Function.update_eq_self] using h

/-! ### The continuous dynamics and its hand-written Jacobians

Direct translations of `Rocket_Model_6DoF.f_func`, `A_func` and
`B_func`.  State coordinates: `x 0` mass, `x 4 … x 6` velocity,
`x 7 … x 10` quaternion `q0 … q3`, `x 11 … x 13` angular rate
`wx wy wz`; control coordinates `u 0 … u 2` are `ux uy uz`. -/

noncomputable def f_func (x : Fin 14 → ℝ) (u : Fin 3 → ℝ) : Fin 14 → ℝ :=
  ![-0.01 * Real.sqrt (u 0 ^ 2 + u 1 ^ 2 + u 2 ^ 2),
    x 4,
    x 5,
    x 6,
    (-1.0 * x 0 - u 0 * (2 * x 9 ^ 2 + 2 * x 10 ^ 2 - 1) - 2 * u 1 * (x 7 * x 10 - x 8 * x 9)
        + 2 * u 2 * (x 7 * x 9 + x 8 * x 10)) / x 0,
    (2 * u 0 * (x 7 * x 10 + x 8 * x 9) - u 1 * (2 * x 8 ^ 2 + 2 * x 10 ^ 2 - 1)
        - 2 * u 2 * (x 7 * x 8 - x 9 * x 10)) / x 0,
    (-2 * u 0 * (x 7 * x 9 - x 8 * x 10) + 2 * u 1 * (x 7 * x 8 + x 9 * x 10)
        - u 2 * (2 * x 8 ^ 2 + 2 * x 9 ^ 2 - 1)) / x 0,
    -0.5 * x 8 * x 11 - 0.5 * x 9 * x 12 - 0.5 * x 10 * x 13,
    0.5 * x 7 * x 11 + 0.5 * x 9 * x 13 - 0.5 * x 10 * x 12,
    0.5 * x 7 * x 12 - 0.5 * x 8 * x 13 + 0.5 * x 10 * x 11,
    0.5 * x 7 * x 13 + 0.5 * x 8 * x 12 - 0.5 * x 9 * x 11,
    0,
    1.0 * u 2,
    -1.0 * u 1]

noncomputable def A_func (x : Fin 14 → ℝ) (u : Fin 3 → ℝ) : Fin 14 → Fin 14 → ℝ :=
  ![![0, 0, 0, 0, 0, 0, 0, 0, 0, 0, 0, 0, 0, 0],
    ![0, 0, 0, 0, 1, 0, 0, 0, 0, 0, 0, 0, 0, 0],
    ![0, 0, 0, 0, 0, 1, 0, 0, 0, 0, 0, 0, 0, 0],
    ![0, 0, 0, 0, 0, 0, 1, 0, 0, 0, 0, 0, 0, 0],
    ![(u 0 * (2 * x 9 ^ 2 + 2 * x 10 ^ 2 - 1) + 2 * u 1 * (x 7 * x 10 - x 8 * x 9)
          - 2 * u 2 * (x 7 * x 9 + x 8 * x 10)) / x 0 ^ 2,
      0, 0, 0, 0, 0, 0,
      2 * (x 9 * u 2 - x 10 * u 1) / x 0,
      2 * (x 9 * u 1 + x 10 * u 2) / x 0,
      2 * (x 7 * u 2 + x 8 * u 1 - 2 * x 9 * u 0) / x 0,
      2 * (-x 7 * u 1 + x 8 * u 2 - 2 * x 10 * u 0) / x 0,
      0, 0, 0],
    ![(-2 * u 0 * (x 7 * x 10 + x 8 * x 9) + u 1 * (2 * x 8 ^ 2 + 2 * x 10 ^ 2 - 1)
          + 2 * u 2 * (x 7 * x 8 - x 9 * x 10)) / x 0 ^ 2,
      0, 0, 0, 0, 0, 0,
      2 * (-x 8 * u 2 + x 10 * u 0) / x 0,
      2 * (-x 7 * u 2 - 2 * x 8 * u 1 + x 9 * u 0) / x 0,
      2 * (x 8 * u 0 + x 10 * u 2) / x 0,
      2 * (x 7 * u 0 + x 9 * u 2 - 2 * x 10 * u 1) / x 0,
      0, 0, 0],
    ![(2 * u 0 * (x 7 * x 9 - x 8 * x 10) - 2 * u 1 * (x 7 * x 8 + x 9 * x 10)
          + u 2 * (2 * x 8 ^ 2 + 2 * x 9 ^ 2 - 1)) / x 0 ^ 2,
      0, 0, 0, 0, 0, 0,
      2 * (x 8 * u 1 - x 9 * u 0) / x 0,
      2 * (x 7 * u 1 - 2 * x 8 * u 2 + x 10 * u 0) / x 0,
      2 * (-x 7 * u 0 - 2 * x 9 * u 2 + x 10 * u 1) / x 0,
      2 * (x 8 * u 0 + x 9 * u 1) / x 0,
      0, 0, 0],
    ![0, 0, 0, 0, 0, 0, 0, 0, -0.5 * x 11, -0.5 * x 12, -0.5 * x 13,
      -0.5 * x 8, -0.5 * x 9, -0.5 * x 10],
    ![0, 0, 0, 0, 0, 0, 0, 0.5 * x 11, 0, 0.5 * x 13, -0.5 * x 12,
      0.5 * x 7, -0.5 * x 10, 0.5 * x 9],
    ![0, 0, 0, 0, 0, 0, 0, 0.5 * x 12, -0.5 * x 13, 0, 0.5 * x 11,
      0.5 * x 10, 0.5 * x 7, -0.5 * x 8],
    ![0, 0, 0, 0, 0, 0, 0, 0.5 * x 13, 0.5 * x 12, -0.5 * x 11, 0,
      -0.5 * x 9, 0.5 * x 8, 0.5 * x 7],
    ![0, 0, 0, 0, 0, 0, 0, 0, 0, 0, 0, 0, 0, 0],
    ![0, 0, 0, 0, 0, 0, 0, 0, 0, 0, 0, 0, 0, 0],
    ![0, 0, 0, 0, 0, 0, 0, 0, 0, 0, 0, 0, 0, 0]]

noncomputable def B_func (x : Fin 14 → ℝ) (u : Fin 3 → ℝ) : Fin 14 → Fin 3 → ℝ :=
  ![![-0.01 * u 0 / Real.sqrt (u 0 ^ 2 + u 1 ^ 2 + u 2 ^ 2),
      -0.01 * u 1 / Real.sqrt (u 0 ^ 2 + u 1 ^ 2 + u 2 ^ 2),
      -0.01 * u 2 / Real.sqrt (u 0 ^ 2 + u 1 ^ 2 + u 2 ^ 2)],
    ![0, 0, 0],
    ![0, 0, 0],
    ![0, 0, 0],
    ![(-2 * x 9 ^ 2 - 2 * x 10 ^ 2 + 1) / x 0,
      2 * (-x 7 * x 10 + x 8 * x 9) / x 0,
      2 * (x 7 * x 9 + x 8 * x 10) / x 0],
    ![2 * (x 7 * x 10 + x 8 * x 9) / x 0,
      (-2 * x 8 ^ 2 - 2 * x 10 ^ 2 + 1) / x 0,
      2 * (-x 7 * x 8 + x 9 * x 10) / x 0],
    ![2 * (-x 7 * x 9 + x 8 * x 10) / x 0,
      2 * (x 7 * x 8 + x 9 * x 10) / x 0,
      (-2 * x 8 ^ 2 - 2 * x 9 ^ 2 + 1) / x 0],
    ![0, 0, 0],
    ![0, 0, 0],
    ![0, 0, 0],
    ![0, 0, 0],
    ![0, 0, 0],
    ![0, 0, 1.0],
    ![0, -1.0, 0]]

/-! ### Symbolic encodings of the 14 rows of `f_func` -/

def Cn (r : ℝ) : RExpr := RExpr.c r

def Xv (i : Fin 14) : RExpr := RExpr.xv i

def Uv (i : Fin 3) : RExpr := RExpr.uv i

def fE : Fin 14 → RExpr :=
  ![Cn (-0.01) * RExpr.sqrtE (RExpr.sq (Uv 0) + RExpr.sq (Uv 1) + RExpr.sq (Uv 2)),
    Xv 4,
    Xv 5,
    Xv 6,
    (Cn (-1.0) * Xv 0 - Uv 0 * (Cn 2 * RExpr.sq (Xv 9) + Cn 2 * RExpr.sq (Xv 10) - Cn 1)
        - Cn 2 * Uv 1 * (Xv 7 * Xv 10 - Xv 8 * Xv 9)
        + Cn 2 * Uv 2 * (Xv 7 * Xv 9 + Xv 8 * Xv 10)) / Xv 0,
    (Cn 2 * Uv 0 * (Xv 7 * Xv 10 + Xv 8 * Xv 9)
        - Uv 1 * (Cn 2 * RExpr.sq (Xv 8) + Cn 2 * RExpr.sq (Xv 10) - Cn 1)
        - Cn 2 * Uv 2 * (Xv 7 * Xv 8 - Xv 9 * Xv 10)) / Xv 0,
    (Cn (-2) * Uv 0 * (Xv 7 * Xv 9 - Xv 8 * Xv 10)
        + Cn 2 * Uv 1 * (Xv 7 * Xv 8 + Xv 9 * Xv 10)
        - Uv 2 * (Cn 2 * RExpr.sq (Xv 8) + Cn 2 * RExpr.sq (Xv 9) - Cn 1)) / Xv 0,
    Cn (-0.5) * Xv 8 * Xv 11 - Cn 0.5 * Xv 9 * Xv 12 - Cn 0.5 * Xv 10 * Xv 13,
    Cn 0.5 * Xv 7 * Xv 11 + Cn 0.5 * Xv 9 * Xv 13 - Cn 0.5 * Xv 10 * Xv 12,
    Cn 0.5 * Xv 7 * Xv 12 - Cn 0.5 * Xv 8 * Xv 13 + Cn 0.5 * Xv 10 * Xv 11,
    Cn 0.5 * Xv 7 * Xv 13 + Cn 0.5 * Xv 8 * Xv 12 - Cn 0.5 * Xv 9 * Xv 11,
    Cn 0,
    Cn 1.0 * Uv 2,
    Cn (-1.0) * Uv 1]

/-- The symbolic encoding evaluates to `f_func`. -/
theorem eval_fE (x : Fin 14 → ℝ) (u : Fin 3 → ℝ) (i : Fin 14) :
    eval x u (fE i) = f_func x u i := by
  fin_cases i <;> simp [fE, f_func, Cn, Xv, Uv]

/-- If the mass and the control norm are nonzero, every row encoding is
`Good` at `(x, u)`. -/
theorem good_fE (x : Fin 14 → ℝ) (u : Fin 3 → ℝ) (hm : x 0 ≠ 0)
    (hS : u 0 ^ 2 + u 1 ^ 2 + u 2 ^ 2 ≠ 0) (i : Fin 14) : Good x u (fE i) := by
  fin_cases i <;> simp [fE, Good, Cn, Xv, Uv, hm, hS]

/-- A nonzero control has nonzero squared norm. -/
theorem sumsq_ne_zero (u : Fin 3 → ℝ) (hu : u ≠ 0) : u 0 ^ 2 + u 1 ^ 2 + u 2 ^ 2 ≠ 0 := by
  intro h
  apply hu
  have h0 : u 0 = 0 := by nlinarith [sq_nonneg (u 0), sq_nonneg (u 1), sq_nonneg (u 2)]
  have h1 : u 1 = 0 := by nlinarith [sq_nonneg (u 0), sq_nonneg (u 1), sq_nonneg (u 2)]
  have h2 : u 2 = 0 := by nlinarith [sq_nonneg (u 0), sq_nonneg (u 1), sq_nonneg (u 2)]
  funext i
  fin_cases i
  · exact h0
  · exact h1
  · exact h2

theorem eval_dX_fE0 (x : Fin 14 → ℝ) (u : Fin 3 → ℝ) (j : Fin 14) :
    eval x u (dX j (fE 0)) = A_func x u 0 j := by
  fin_cases j <;> simp [fE, A_func, Cn, Xv, Uv, Matrix.vecHead, Matrix.vecTail, -Matrix.cons_val'] <;> (try field_simp) <;> (try ring)

theorem eval_dX_fE1 (x : Fin 14 → ℝ) (u : Fin 3 → ℝ) (j : Fin 14) :
    eval x u (dX j (fE 1)) = A_func x u 1 j := by
  fin_cases j <;> simp [fE, A_func, Cn, Xv, Uv, Matrix.vecHead, Matrix.vecTail, -Matrix.cons_val'] <;> (try field_simp) <;> (try ring)

theorem eval_dX_fE2 (x : Fin 14 → ℝ) (u : Fin 3 → ℝ) (j : Fin 14) :
    eval x u (dX j (fE 2)) = A_func x u 2 j := by
  fin_cases j <;> simp [fE, A_func, Cn, Xv, Uv, Matrix.vecHead, Matrix.vecTail, -Matrix.cons_val'] <;> (try field_simp) <;> (try ring)

theorem eval_dX_fE3 (x : Fin 14 → ℝ) (u : Fin 3 → ℝ) (j : Fin 14) :
    eval x u (dX j (fE 3)) = A_func x u 3 j := by
  fin_cases j <;> simp [fE, A_func, Cn, Xv, Uv, Matrix.vecHead, Matrix.vecTail, -Matrix.cons_val'] <;> (try field_simp) <;> (try ring)

theorem eval_dX_fE4 (x : Fin 14 → ℝ) (u : Fin 3 → ℝ) (hm : x 0 ≠ 0) (j : Fin 14) :
    eval x u (dX j (fE 4)) = A_func x u 4 j := by
  fin_cases j <;> simp [fE, A_func, Cn, Xv, Uv, Matrix.vecHead, Matrix.vecTail, -Matrix.cons_val'] <;> (try field_simp) <;> (try ring)

theorem eval_dX_fE5 (x : Fin 14 → ℝ) (u : Fin 3 → ℝ) (hm : x 0 ≠ 0) (j : Fin 14) :
    eval x u (dX j (fE 5)) = A_func x u 5 j := by
  fin_cases j <;> simp [fE, A_func, Cn, Xv, Uv, Matrix.vecHead, Matrix.vecTail, -Matrix.cons_val'] <;> (try field_simp) <;> (try ring)

theorem eval_dX_fE6 (x : Fin 14 → ℝ) (u : Fin 3 → ℝ) (hm : x 0 ≠ 0) (j : Fin 14) :
    eval x u (dX j (fE 6)) = A_func x u 6 j := by
  fin_cases j <;> simp [fE, A_func, Cn, Xv, Uv, Matrix.vecHead, Matrix.vecTail, -Matrix.cons_val'] <;> (try field_simp) <;> (try ring)

theorem eval_dX_fE7 (x : Fin 14 → ℝ) (u : Fin 3 → ℝ) (j : Fin 14) :
    eval x u (dX j (fE 7)) = A_func x u 7 j := by
  fin_cases j <;> simp [fE, A_func, Cn, Xv, Uv, Matrix.vecHead, Matrix.vecTail, -Matrix.cons_val'] <;> (try field_simp) <;> (try ring)

theorem eval_dX_fE8 (x : Fin 14 → ℝ) (u : Fin 3 → ℝ) (j : Fin 14) :
    eval x u (dX j (fE 8)) = A_func x u 8 j := by
  fin_cases j <;> simp [fE, A_func, Cn, Xv, Uv, Matrix.vecHead, Matrix.vecTail, -Matrix.cons_val'] <;> (try field_simp) <;> (try ring)

theorem eval_dX_fE9 (x : Fin 14 → ℝ) (u : Fin 3 → ℝ) (j : Fin 14) :
    eval x u (dX j (fE 9)) = A_func x u 9 j := by
  fin_cases j <;> simp [fE, A_func, Cn, Xv, Uv, Matrix.vecHead, Matrix.vecTail, -Matrix.cons_val'] <;> (try field_simp) <;> (try ring)

theorem eval_dX_fE10 (x : Fin 14 → ℝ) (u : Fin 3 → ℝ) (j : Fin 14) :
    eval x u (dX j (fE 10)) = A_func x u 10 j := by
  fin_cases j <;> simp [fE, A_func, Cn, Xv, Uv, Matrix.vecHead, Matrix.vecTail, -Matrix.cons_val'] <;> (try field_simp) <;> (try ring)

theorem eval_dX_fE11 (x : Fin 14 → ℝ) (u : Fin 3 → ℝ) (j : Fin 14) :
    eval x u (dX j (fE 11)) = A_func x u 11 j := by
  fin_cases j <;> simp [fE, A_func, Cn, Xv, Uv, Matrix.vecHead, Matrix.vecTail, -Matrix.cons_val'] <;> (try field_simp) <;> (try ring)

theorem eval_dX_fE12 (x : Fin 14 → ℝ) (u : Fin 3 → ℝ) (j : Fin 14) :
    eval x u (dX j (fE 12)) = A_func x u 12 j := by
  fin_cases j <;> simp [fE, A_func, Cn, Xv, Uv, Matrix.vecHead, Matrix.vecTail, -Matrix.cons_val'] <;> (try field_simp) <;> (try ring)

theorem eval_dX_fE13 (x : Fin 14 → ℝ) (u : Fin 3 → ℝ) (j : Fin 14) :
    eval x u (dX j (fE 13)) = A_func x u 13 j := by
  fin_cases j <;> simp [fE, A_func, Cn, Xv, Uv, Matrix.vecHead, Matrix.vecTail, -Matrix.cons_val'] <;> (try field_simp) <;> (try ring)

theorem eval_dU_fE0 (x : Fin 14 → ℝ) (u : Fin 3 → ℝ) (hq : Real.sqrt (u 0 ^ 2 + u 1 ^ 2 + u 2 ^ 2) ≠ 0) (j : Fin 3) :
    eval x u (dU j (fE 0)) = B_func x u 0 j := by
  fin_cases j <;> simp [fE, B_func, Cn, Xv, Uv, Matrix.vecHead, Matrix.vecTail, -Matrix.cons_val'] <;> (try field_simp) <;> (try ring)

theorem eval_dU_fE1 (x : Fin 14 → ℝ) (u : Fin 3 → ℝ) (j : Fin 3) :
    eval x u (dU j (fE 1)) = B_func x u 1 j := by
  fin_cases j <;> simp [fE, B_func, Cn, Xv, Uv, Matrix.vecHead, Matrix.vecTail, -Matrix.cons_val'] <;> (try field_simp) <;> (try ring)

theorem eval_dU_fE2 (x : Fin 14 → ℝ) (u : Fin 3 → ℝ) (j : Fin 3) :
    eval x u (dU j (fE 2)) = B_func x u 2 j := by
  fin_cases j <;> simp [fE, B_func, Cn, Xv, Uv, Matrix.vecHead, Matrix.vecTail, -Matrix.cons_val'] <;> (try field_simp) <;> (try ring)

theorem eval_dU_fE3 (x : Fin 14 → ℝ) (u : Fin 3 → ℝ) (j : Fin 3) :
    eval x u (dU j (fE 3)) = B_func x u 3 j := by
  fin_cases j <;> simp [fE, B_func, Cn, Xv, Uv, Matrix.vecHead, Matrix.vecTail, -Matrix.cons_val'] <;> (try field_simp) <;> (try ring)

theorem eval_dU_fE4 (x : Fin 14 → ℝ) (u : Fin 3 → ℝ) (hm : x 0 ≠ 0) (j : Fin 3) :
    eval x u (dU j (fE 4)) = B_func x u 4 j := by
  fin_cases j <;> simp [fE, B_func, Cn, Xv, Uv, Matrix.vecHead, Matrix.vecTail, -Matrix.cons_val'] <;> (try field_simp) <;> (try ring)

theorem eval_dU_fE5 (x : Fin 14 → ℝ) (u : Fin 3 → ℝ) (hm : x 0 ≠ 0) (j : Fin 3) :
    eval x u (dU j (fE 5)) = B_func x u 5 j := by
  fin_cases j <;> simp [fE, B_func, Cn, Xv, Uv, Matrix.vecHead, Matrix.vecTail, -Matrix.cons_val'] <;> (try field_simp) <;> (try ring)

theorem eval_dU_fE6 (x : Fin 14 → ℝ) (u : Fin 3 → ℝ) (hm : x 0 ≠ 0) (j : Fin 3) :
    eval x u (dU j (fE 6)) = B_func x u 6 j := by
  fin_cases j <;> simp [fE, B_func, Cn, Xv, Uv, Matrix.vecHead, Matrix.vecTail, -Matrix.cons_val'] <;> (try field_simp) <;> (try ring)

theorem eval_dU_fE7 (x : Fin 14 → ℝ) (u : Fin 3 → ℝ) (j : Fin 3) :
    eval x u (dU j (fE 7)) = B_func x u 7 j := by
  fin_cases j <;> simp [fE, B_func, Cn, Xv, Uv, Matrix.vecHead, Matrix.vecTail, -Matrix.cons_val'] <;> (try field_simp) <;> (try ring)

theorem eval_dU_fE8 (x : Fin 14 → ℝ) (u : Fin 3 → ℝ) (j : Fin 3) :
    eval x u (dU j (fE 8)) = B_func x u 8 j := by
  fin_cases j <;> simp [fE, B_func, Cn, Xv, Uv, Matrix.vecHead, Matrix.vecTail, -Matrix.cons_val'] <;> (try field_simp) <;> (try ring)

theorem eval_dU_fE9 (x : Fin 14 → ℝ) (u : Fin 3 → ℝ) (j : Fin 3) :
    eval x u (dU j (fE 9)) = B_func x u 9 j := by
  fin_cases j <;> simp [fE, B_func, Cn, Xv, Uv, Matrix.vecHead, Matrix.vecTail, -Matrix.cons_val'] <;> (try field_simp) <;> (try ring)

theorem eval_dU_fE10 (x : Fin 14 → ℝ) (u : Fin 3 → ℝ) (j : Fin 3) :
    eval x u (dU j (fE 10)) = B_func x u 10 j := by
  fin_cases j <;> simp [fE, B_func, Cn, Xv, Uv, Matrix.vecHead, Matrix.vecTail, -Matrix.cons_val'] <;> (try field_simp) <;> (try ring)

theorem eval_dU_fE11 (x : Fin 14 → ℝ) (u : Fin 3 → ℝ) (j : Fin 3) :
    eval x u (dU j (fE 11)) = B_func x u 11 j := by
  fin_cases j <;> simp [fE, B_func, Cn, Xv, Uv, Matrix.vecHead, Matrix.vecTail, -Matrix.cons_val'] <;> (try field_simp) <;> (try ring)

theorem eval_dU_fE12 (x : Fin 14 → ℝ) (u : Fin 3 → ℝ) (j : Fin 3) :
    eval x u (dU j (fE 12)) = B_func x u 12 j := by
  fin_cases j <;> simp [fE, B_func, Cn, Xv, Uv, Matrix.vecHead, Matrix.vecTail, -Matrix.cons_val'] <;> (try field_simp) <;> (try ring)

theorem eval_dU_fE13 (x : Fin 14 → ℝ) (u : Fin 3 → ℝ) (j : Fin 3) :
    eval x u (dU j (fE 13)) = B_func x u 13 j := by
  fin_cases j <;> simp [fE, B_func, Cn, Xv, Uv, Matrix.vecHead, Matrix.vecTail, -Matrix.cons_val'] <;> (try field_simp) <;> (try ring)

/-- The square root of a nonzero sum of squares is nonzero. -/
theorem sqrt_sumsq_ne_zero (u : Fin 3 → ℝ) (hS : u 0 ^ 2 + u 1 ^ 2 + u 2 ^ 2 ≠ 0) :
    Real.sqrt (u 0 ^ 2 + u 1 ^ 2 + u 2 ^ 2) ≠ 0 := by
  rw [Real.sqrt_ne_zero']
  rcases lt_or_eq_of_le (by positivity : (0:ℝ) ≤ u 0 ^ 2 + u 1 ^ 2 + u 2 ^ 2) with h | h
  · exact h
  · exact absurd h.symm hS

/-- The syntactic state derivative of every row of `fE` evaluates to the
corresponding entry of `A_func`. -/
theorem eval_dX_fE (x : Fin 14 → ℝ) (u : Fin 3 → ℝ) (hm : x 0 ≠ 0) (i j : Fin 14) :
    eval x u (dX j (fE i)) = A_func x u i j := by
  fin_cases i
  · exact eval_dX_fE0 x u j
  · exact eval_dX_fE1 x u j
  · exact eval_dX_fE2 x u j
  · exact eval_dX_fE3 x u j
  · exact eval_dX_fE4 x u hm j
  · exact eval_dX_fE5 x u hm j
  · exact eval_dX_fE6 x u hm j
  · exact eval_dX_fE7 x u j
  · exact eval_dX_fE8 x u j
  · exact eval_dX_fE9 x u j
  · exact eval_dX_fE10 x u j
  · exact eval_dX_fE11 x u j
  · exact eval_dX_fE12 x u j
  · exact eval_dX_fE13 x u j

/-- The syntactic control derivative of every row of `fE` evaluates to
the corresponding entry of `B_func`. -/
theorem eval_dU_fE (x : Fin 14 → ℝ) (u : Fin 3 → ℝ) (hm : x 0 ≠ 0)
    (hS : u 0 ^ 2 + u 1 ^ 2 + u 2 ^ 2 ≠ 0) (i : Fin 14) (j : Fin 3) :
    eval x u (dU j (fE i)) = B_func x u i j := by
  fin_cases i
  · exact eval_dU_fE0 x u (sqrt_sumsq_ne_zero u hS) j
  · exact eval_dU_fE1 x u j
  · exact eval_dU_fE2 x u j
  · exact eval_dU_fE3 x u j
  · exact eval_dU_fE4 x u hm j
  · exact eval_dU_fE5 x u hm j
  · exact eval_dU_fE6 x u hm j
  · exact eval_dU_fE7 x u j
  · exact eval_dU_fE8 x u j
  · exact eval_dU_fE9 x u j
  · exact eval_dU_fE10 x u j
  · exact eval_dU_fE11 x u j
  · exact eval_dU_fE12 x u j
  · exact eval_dU_fE13 x u j

/-- Claim C1: for every state with nonzero mass and every nonzero
control, `A_func` is, entry by entry, the exact Jacobian of `f_func`
with respect to the state, and `B_func` is the exact Jacobian of
`f_func` with respect to the control: varying any single state
coordinate `j` (resp. control coordinate `j`), the derivative of row
`i` of `f_func` is exactly `A_func x u i j` (resp. `B_func x u i j`). -/
theorem A_B_exact_jacobians (x : Fin 14 → ℝ) (u : Fin 3 → ℝ) (hm : x 0 ≠ 0) (hu : u ≠ 0)
    (i : Fin 14) :
    (∀ j : Fin 14,
        HasDerivAt (fun s => f_func (Function.update x j s) u i) (A_func x u i j) (x j)) ∧
    (∀ j : Fin 3,
        HasDerivAt (fun s => f_func x (Function.update u j s) i) (B_func x u i j) (u j)) := by
  have hS := sumsq_ne_zero u hu
  constructor
  · intro j
    have h := hasDerivAt_evalX x u j (fE i) (good_fE x u hm hS i)
    rw [eval_dX_fE x u hm i j] at h
    have hfun : (fun s => eval (Function.update x j s) u (fE i))
        = fun s => f_func (Function.update x j s) u i := by
      funext s
      exact eval_fE (Function.update x j s) u i
    rwa [hfun] at h
  · intro j
    have h := hasDerivAt_evalU x u j (fE i) (good_fE x u hm hS i)
    rw [eval_dU_fE x u hm hS i j] at h
    have hfun : (fun s => eval x (Function.update u j s) (fE i))
        = fun s => f_func x (Function.update u j s) i := by
      funext s
      exact eval_fE x (Function.update u j s) i
    rwa [hfun] at h

/-- A concrete state with all coordinates 1, used by witnesses. -/
noncomputable def X1 : Fin 14 → ℝ := fun _ => 1

/-- A concrete control with all coordinates 1, used by witnesses. -/
noncomputable def U1 : Fin 3 → ℝ := fun _ => 1

theorem U1_ne_zero : U1 ≠ 0 := by
  intro h
  have h0 : U1 0 = 0 := congrFun h 0
  simp [U1] at h0

/-- Witness for claim C1 at the concrete point `X1, U1`. -/
theorem A_B_exact_jacobians_witness :
    HasDerivAt (fun s => f_func (Function.update X1 0 s) U1 4) (A_func X1 U1 4 0) (X1 0) :=
  (A_B_exact_jacobians X1 U1 (by norm_num [X1]) U1_ne_zero 4).1 0

/-! ### The quaternion helpers and the spec-side reading of `f_func` -/

/-- `Rocket_Model_6DoF.dir_cosine`: body-from-inertial direction cosine
matrix of a scalar-first quaternion. -/
noncomputable def dir_cosine (q : Fin 4 → ℝ) : Fin 3 → Fin 3 → ℝ :=
  ![![1 - 2 * (q 2 ^ 2 + q 3 ^ 2), 2 * (q 1 * q 2 + q 0 * q 3), 2 * (q 1 * q 3 - q 0 * q 2)],
    ![2 * (q 1 * q 2 - q 0 * q 3), 1 - 2 * (q 1 ^ 2 + q 3 ^ 2), 2 * (q 2 * q 3 + q 0 * q 1)],
    ![2 * (q 1 * q 3 + q 0 * q 2), 2 * (q 2 * q 3 - q 0 * q 1), 1 - 2 * (q 1 ^ 2 + q 2 ^ 2)]]

/-- `Rocket_Model_6DoF.omega`: the quaternion-kinematics matrix of an
angular rate vector. -/
noncomputable def omega (w : Fin 3 → ℝ) : Fin 4 → Fin 4 → ℝ :=
  ![![0, -w 0, -w 1, -w 2],
    ![w 0, 0, w 2, -w 1],
    ![w 1, -w 2, 0, w 0],
    ![w 2, w 1, -w 0, 0]]

/-- `self.g_I = np.array((-1, 0., 0.))`. -/
noncomputable def g_I : Fin 3 → ℝ := ![-1, 0, 0]

/-- `self.alpha_m = 0.01`. -/
noncomputable def alpha_m : ℝ := 0.01

/-- `self.r_T_B = np.array([-1e-2, 0., 0.])`. -/
noncomputable def r_T_B : Fin 3 → ℝ := ![-1e-2, 0, 0]

/-- `self.J_B = 1e-2 * np.diag([1., 1., 1.])`. -/
noncomputable def J_B : Fin 3 → Fin 3 → ℝ :=
  ![![1e-2 * 1, 0, 0], ![0, 1e-2 * 1, 0], ![0, 0, 1e-2 * 1]]

/-- The quaternion block of a state vector. -/
noncomputable def qOf (x : Fin 14 → ℝ) : Fin 4 → ℝ := ![x 7, x 8, x 9, x 10]

/-- The angular-rate block of a state vector. -/
noncomputable def wOf (x : Fin 14 → ℝ) : Fin 3 → ℝ := ![x 11, x 12, x 13]

/-- Claim C2: for every state with nonzero mass, the rows of `f_func`
are exactly the spec description — mass rate `-alpha_m * norm u` with
`alpha_m = 0.01`, position rate = velocity, velocity rate = gravity
`(-1,0,0)` plus the transposed direction-cosine matrix applied to the
thrust, divided by the mass, quaternion rate = `0.5 * omega w * q`, and
angular rate `(0, u 2, -(u 1))`. -/
theorem f_func_matches_spec (x : Fin 14 → ℝ) (u : Fin 3 → ℝ) (hm : x 0 ≠ 0) :
    (f_func x u 0 = -alpha_m * Real.sqrt (∑ i : Fin 3, u i ^ 2) ∧ alpha_m = 0.01) ∧
    (f_func x u 1 = x 4 ∧ f_func x u 2 = x 5 ∧ f_func x u 3 = x 6) ∧
    (f_func x u 4 = g_I 0 + (∑ k : Fin 3, dir_cosine (qOf x) k 0 * u k) / x 0 ∧
     f_func x u 5 = g_I 1 + (∑ k : Fin 3, dir_cosine (qOf x) k 1 * u k) / x 0 ∧
     f_func x u 6 = g_I 2 + (∑ k : Fin 3, dir_cosine (qOf x) k 2 * u k) / x 0) ∧
    (f_func x u 7 = 0.5 * ∑ k : Fin 4, omega (wOf x) 0 k * qOf x k ∧
     f_func x u 8 = 0.5 * ∑ k : Fin 4, omega (wOf x) 1 k * qOf x k ∧
     f_func x u 9 = 0.5 * ∑ k : Fin 4, omega (wOf x) 2 k * qOf x k ∧
     f_func x u 10 = 0.5 * ∑ k : Fin 4, omega (wOf x) 3 k * qOf x k) ∧
    (f_func x u 11 = 0 ∧ f_func x u 12 = u 2 ∧ f_func x u 13 = -u 1) := by
  refine ⟨⟨?_, ?_⟩, ⟨?_, ?_, ?_⟩, ⟨?_, ?_, ?_⟩, ⟨?_, ?_, ?_, ?_⟩, ⟨?_, ?_, ?_⟩⟩ <;>
    simp [f_func, alpha_m, g_I, dir_cosine, omega, qOf, wOf,
      Fin.sum_univ_three, Fin.sum_univ_four, -Matrix.cons_val'] <;>
    (try field_simp) <;> (try ring)

/-- Witness for claim C2 at the concrete point `X1, U1`. -/
theorem f_func_matches_spec_witness :
    f_func X1 U1 0 = -alpha_m * Real.sqrt (∑ i : Fin 3, U1 i ^ 2) :=
  (f_func_matches_spec X1 U1 (by norm_num [X1])).1.1

/-! ### Claim C10: the domain on which the dynamics are pure computation -/

/-- The divisors occurring in `f_func`: rows 4, 5 and 6 each divide by
the mass `x 0`. -/
noncomputable def f_func_divisors (x : Fin 14 → ℝ) : List ℝ := [x 0, x 0, x 0]

/-- The square-root arguments occurring in `f_func`: row 0 takes the
square root of the squared control norm. -/
noncomputable def f_func_sqrt_args (u : Fin 3 → ℝ) : List ℝ := [u 0 ^ 2 + u 1 ^ 2 + u 2 ^ 2]

/-- The divisors occurring in `A_func`: in each of rows 4, 5 and 6,
the mass column divides by `x 0 ^ 2` and the four quaternion columns
divide by `x 0`. -/
noncomputable def A_func_divisors (x : Fin 14 → ℝ) : List ℝ :=
  [x 0 ^ 2, x 0, x 0, x 0, x 0,
   x 0 ^ 2, x 0, x 0, x 0, x 0,
   x 0 ^ 2, x 0, x 0, x 0, x 0]

/-- The divisors occurring in `B_func`: the three mass-row entries
divide by the control norm and rows 4, 5 and 6 divide by `x 0` three
times each. -/
noncomputable def B_func_divisors (x : Fin 14 → ℝ) (u : Fin 3 → ℝ) : List ℝ :=
  [Real.sqrt (u 0 ^ 2 + u 1 ^ 2 + u 2 ^ 2),
   Real.sqrt (u 0 ^ 2 + u 1 ^ 2 + u 2 ^ 2),
   Real.sqrt (u 0 ^ 2 + u 1 ^ 2 + u 2 ^ 2),
   x 0, x 0, x 0, x 0, x 0, x 0, x 0, x 0, x 0]

/-- The square-root arguments occurring in `B_func`: the three mass-row
entries take the square root of the squared control norm. -/
noncomputable def B_func_sqrt_args (u : Fin 3 → ℝ) : List ℝ :=
  [u 0 ^ 2 + u 1 ^ 2 + u 2 ^ 2, u 0 ^ 2 + u 1 ^ 2 + u 2 ^ 2, u 0 ^ 2 + u 1 ^ 2 + u 2 ^ 2]

/-- Claim C10: under `mass ≠ 0` and `u ≠ 0` every division and square
root inside `f_func`, `A_func` and `B_func` is well defined — every
divisor (each is `m`, `m ^ 2` or the control norm) is nonzero and every
square-root argument is nonnegative — and the precondition `u ≠ 0` is
necessary: at the zero control the divisor used by the mass row of
`B_func` is the norm of the zero control, which is `0`. -/
theorem dynamics_pure_on_domain (x : Fin 14 → ℝ) (u : Fin 3 → ℝ) (hm : x 0 ≠ 0) (hu : u ≠ 0) :
    ((∀ d ∈ f_func_divisors x, d ≠ 0) ∧
     (∀ d ∈ A_func_divisors x, d ≠ 0) ∧
     (∀ d ∈ B_func_divisors x u, d ≠ 0) ∧
     (∀ a ∈ f_func_sqrt_args u, 0 ≤ a) ∧
     (∀ a ∈ B_func_sqrt_args u, 0 ≤ a)) ∧
    ((0:ℝ) ∈ B_func_divisors x fun _ => 0) := by
  have hS := sumsq_ne_zero u hu
  have hq := sqrt_sumsq_ne_zero u hS
  constructor
  · refine ⟨?_, ?_, ?_, ?_, ?_⟩ <;>
      simp [f_func_divisors, A_func_divisors, B_func_divisors, f_func_sqrt_args,
        B_func_sqrt_args, hm, hS, hq] <;>
      positivity
  · have h0 : Real.sqrt ((0:ℝ) ^ 2 + 0 ^ 2 + 0 ^ 2) = 0 := by norm_num
    simp [B_func_divisors, h0]

/-- Witness for claim C10 at the concrete point `X1, U1`. -/
theorem dynamics_pure_on_domain_witness :
    (∀ d ∈ f_func_divisors X1, d ≠ 0) ∧ ((0:ℝ) ∈ B_func_divisors X1 fun _ => 0) :=
  ⟨(dynamics_pure_on_domain X1 U1 (by norm_num [X1]) U1_ne_zero).1.1,
   (dynamics_pure_on_domain X1 U1 (by norm_num [X1]) U1_ne_zero).2⟩

/-! ### Model constants, the random initial state, and construction -/

/-- `np.deg2rad`. -/
noncomputable def deg2rad (d : ℝ) : ℝ := d * (Real.pi / 180)

/-- `Rocket_Model_6DoF.euler_to_quat`: scalar-first quaternion from
Euler angles in degrees (note the source assigns index 2 and index 3
out of order). -/
noncomputable def euler_to_quat (a : Fin 3 → ℝ) : Fin 4 → ℝ :=
  let cy := Real.cos (deg2rad (a 1) * 0.5)
  let sy := Real.sin (deg2rad (a 1) * 0.5)
  let cr := Real.cos (deg2rad (a 0) * 0.5)
  let sr := Real.sin (deg2rad (a 0) * 0.5)
  let cp := Real.cos (deg2rad (a 2) * 0.5)
  let sp := Real.sin (deg2rad (a 2) * 0.5)
  ![cy * cr * cp + sy * sr * sp,
    cy * sr * cp - sy * cr * sp,
    sy * cr * cp - cy * sr * sp,
    cy * cr * sp + sy * sr * cp]

/-- `self.m_wet = 3.0`. -/
noncomputable def m_wet : ℝ := 3.0

/-- `self.m_dry = 2.2`. -/
noncomputable def m_dry : ℝ := 2.2

/-- `self.t_f_guess = 10.0`. -/
noncomputable def t_f_guess : ℝ := 10.0

/-- `self.r_I_final = np.array((0., 0., 0.))`. -/
noncomputable def r_I_final : Fin 3 → ℝ := ![0, 0, 0]

/-- `self.v_I_final = np.array((-1e-1, 0., 0.))`. -/
noncomputable def v_I_final : Fin 3 → ℝ := ![-1e-1, 0, 0]

/-- `self.q_B_I_final = self.euler_to_quat((0, 0, 0))`. -/
noncomputable def q_B_I_final : Fin 4 → ℝ := euler_to_quat ![0, 0, 0]

/-- `self.w_B_final = np.deg2rad(np.array((0., 0., 0.)))`. -/
noncomputable def w_B_final : Fin 3 → ℝ := ![deg2rad 0, deg2rad 0, deg2rad 0]

/-- `self.w_B_max = np.deg2rad(60)`. -/
noncomputable def w_B_max : ℝ := deg2rad 60

/-- `self.tan_delta_max = np.tan(np.deg2rad(max_gimbal))`, `max_gimbal = 20`. -/
noncomputable def tan_delta_max : ℝ := Real.tan (deg2rad 20)

/-- `self.cos_theta_max = np.cos(np.deg2rad(max_angle))`, `max_angle = 90`. -/
noncomputable def cos_theta_max : ℝ := Real.cos (deg2rad 90)

/-- `self.tan_gamma_gs = np.tan(np.deg2rad(glidelslope_angle))`, angle 20. -/
noncomputable def tan_gamma_gs : ℝ := Real.tan (deg2rad 20)

/-- `self.T_max = 5.0`. -/
noncomputable def T_max : ℝ := 5.0

/-- `self.T_min = 0.3`. -/
noncomputable def T_min : ℝ := 0.3

/-- One outcome of the random sampler consumed by
`set_random_initial_state`: the successive `rng.uniform` draws. -/
structure Sample where
  rx : ℝ
  ry : ℝ
  rz : ℝ
  vx : ℝ
  vyf : ℝ
  vzf : ℝ
  pitch : ℝ
  yaw : ℝ
  wy : ℝ
  wz : ℝ

/-- The ranges of the `rng.uniform` calls in `set_random_initial_state`:
`uniform(3, 4)`, `uniform(-2, 2)` twice, `uniform(-1, -0.5)`,
`uniform(-0.5, -0.2)` twice, `uniform(-30, 30)` twice,
`uniform(-20, 20)` twice. -/
def ValidSample (s : Sample) : Prop :=
  (3 ≤ s.rx ∧ s.rx ≤ 4) ∧
  (-2 ≤ s.ry ∧ s.ry ≤ 2) ∧ (-2 ≤ s.rz ∧ s.rz ≤ 2) ∧
  (-1 ≤ s.vx ∧ s.vx ≤ -0.5) ∧
  (-0.5 ≤ s.vyf ∧ s.vyf ≤ -0.2) ∧ (-0.5 ≤ s.vzf ∧ s.vzf ≤ -0.2) ∧
  (-30 ≤ s.pitch ∧ s.pitch ≤ 30) ∧ (-30 ≤ s.yaw ∧ s.yaw ≤ 30) ∧
  (-20 ≤ s.wy ∧ s.wy ≤ 20) ∧ (-20 ≤ s.wz ∧ s.wz ≤ 20)

/-- `self.r_I_init` after `set_random_initial_state`. -/
noncomputable def r_I_init (s : Sample) : Fin 3 → ℝ := ![s.rx, s.ry, s.rz]

/-- `self.v_I_init` after `set_random_initial_state`: the lateral
components are the sampled factors times the lateral positions. -/
noncomputable def v_I_init (s : Sample) : Fin 3 → ℝ := ![s.vx, s.vyf * s.ry, s.vzf * s.rz]

/-- `self.q_B_I_init = euler_to_quat((0, uniform(-30,30), uniform(-30,30)))`. -/
noncomputable def q_B_I_init (s : Sample) : Fin 4 → ℝ := euler_to_quat ![0, s.pitch, s.yaw]

/-- `self.w_B_init = np.deg2rad((0, uniform(-20,20), uniform(-20,20)))`. -/
noncomputable def w_B_init (s : Sample) : Fin 3 → ℝ := ![deg2rad 0, deg2rad s.wy, deg2rad s.wz]

/-- `self.x_init = np.concatenate(((m_wet,), r_I_init, v_I_init, q_B_I_init, w_B_init))`. -/
noncomputable def x_init (s : Sample) : Fin 14 → ℝ :=
  ![m_wet, r_I_init s 0, r_I_init s 1, r_I_init s 2,
    v_I_init s 0, v_I_init s 1, v_I_init s 2,
    q_B_I_init s 0, q_B_I_init s 1, q_B_I_init s 2, q_B_I_init s 3,
    w_B_init s 0, w_B_init s 1, w_B_init s 2]

/-- `self.x_final = np.concatenate(((m_dry,), r_I_final, v_I_final, q_B_I_final, w_B_final))`. -/
noncomputable def x_final : Fin 14 → ℝ :=
  ![m_dry, r_I_final 0, r_I_final 1, r_I_final 2,
    v_I_final 0, v_I_final 1, v_I_final 2,
    q_B_I_final 0, q_B_I_final 1, q_B_I_final 2, q_B_I_final 3,
    w_B_final 0, w_B_final 1, w_B_final 2]

/-- The sample-dependent data `__init__` stores. -/
structure ModelState where
  x_init : Fin 14 → ℝ
  x_final : Fin 14 → ℝ

/-- The error class the spec assigns to invalid construction constants. -/
inductive ModelConfigurationError : Type
  | invalidConstants : ModelConfigurationError

/-- `Rocket_Model_6DoF.__init__` viewed as a fallible computation: the
source constructor performs no validation and contains no raise, so
the construction succeeds unconditionally. -/
noncomputable def mkModel (s : Sample) : Except ModelConfigurationError ModelState :=
  Except.ok ⟨x_init s, x_final⟩

/-- The concrete sampler outcome used for counterexamples: position
`(3.5, 0, 0)`, velocity draw `-0.75`, factor draws `-0.3`, zero pitch,
yaw and angular-rate draws. -/
noncomputable def sample0 : Sample :=
  ⟨3.5, 0, 0, -0.75, -0.3, -0.3, 0, 0, 0, 0⟩

/-- Counterexample to claim C8: construction does not fail — it is the
unconditional `Except.ok`, with no configuration check executed; the
hard-coded masses always satisfy `m_dry < m_wet`, so no invalid
configuration can even be supplied. -/
theorem mkModel_never_fails_ce :
    mkModel sample0 = Except.ok ⟨x_init sample0, x_final⟩ ∧ m_dry < m_wet :=
  ⟨rfl, by norm_num [m_dry, m_wet]⟩

/-- Claim C8 amended: model construction takes no configurable
constants and performs no validation; it succeeds on every sampler
outcome, and the hard-coded dry mass `2.2` is below the wet mass `3.0`,
so an invalid-constants failure cannot arise and no
`ModelConfigurationError` is ever produced. -/
theorem mkModel_total (s : Sample) :
    mkModel s = Except.ok ⟨x_init s, x_final⟩ ∧ m_dry < m_wet :=
  ⟨rfl, by norm_num [m_dry, m_wet]⟩

/-- Counterexample to claim C9: the configured final state is not all
zero except the mass — its velocity component `x_final 4` is the
configured `-1e-1`, not zero (its quaternion component `x_final 7` is
likewise `1`). -/
theorem x_final_not_all_zero_ce : x_final 4 = -1e-1 ∧ ((-1e-1 : ℝ) ≠ 0) := by
  constructor
  · simp [x_final, v_I_final]
  · norm_num

/-- Claim C9 amended: the model uses dry mass `2.2` and wet mass `3.0`;
some valid sampler outcome yields initial position `(3.5, 0, 0)`,
identity attitude, zero angular rate and zero lateral velocity, but the
initial velocity `x` component is drawn from `[-1, -0.5]` and cannot be
zero; and the configured final state is zero except for the mass
`2.2`, the velocity component `-1e-1` and the quaternion scalar `1`. -/
theorem scenario_amended :
    m_dry = 2.2 ∧ m_wet = 3.0 ∧
    (∃ s : Sample, ValidSample s ∧
      r_I_init s = ![3.5, 0, 0] ∧
      q_B_I_init s = ![1, 0, 0, 0] ∧
      w_B_init s = ![0, 0, 0] ∧
      v_I_init s 1 = 0 ∧ v_I_init s 2 = 0 ∧
      -1 ≤ v_I_init s 0 ∧ v_I_init s 0 ≤ -0.5) ∧
    x_final = ![2.2, 0, 0, 0, -1e-1, 0, 0, 1, 0, 0, 0, 0, 0, 0] ∧
    (∀ s : Sample, ValidSample s → v_I_init s 0 ≠ 0) := by
  refine ⟨by norm_num [m_dry], by norm_num [m_wet],
    ⟨sample0, ?_, ?_, ?_, ?_, ?_, ?_, ?_, ?_⟩, ?_, ?_⟩
  · unfold ValidSample sample0
    norm_num
  · funext i
    fin_cases i <;> simp [r_I_init, sample0]
  · funext i
    fin_cases i <;> simp [q_B_I_init, euler_to_quat, deg2rad, sample0]
  · funext i
    fin_cases i <;> simp [w_B_init, deg2rad, sample0]
  · simp [v_I_init, sample0]
  · simp [v_I_init, sample0]
  · simp [v_I_init, sample0]
    norm_num
  · simp [v_I_init, sample0]
    norm_num
  · funext i
    fin_cases i <;>
      simp [x_final, m_dry, r_I_final, v_I_final, q_B_I_final, w_B_final, euler_to_quat,
        deg2rad] <;> norm_num
  · intro s hv
    have h2 := hv.2.2.2.1.2
    simp only [v_I_init, vec3_c0]
    intro h0
    rw [h0] at h2
    norm_num at h2

/-! ### The straight-line initial trajectory guess -/

/-- `initialize_trajectory`, state part: trajectory point `k` of `K`,
with interpolation weights `alpha1 = (K - k)/K` and `alpha2 = k/K` for
mass, position, velocity and angular rate, and the identity quaternion
in coordinates 7 to 10. -/
noncomputable def initial_X (xi xf : Fin 14 → ℝ) (K : ℕ) (k : ℕ) : Fin 14 → ℝ := fun i =>
  if h : 7 ≤ i.val ∧ i.val ≤ 10 then ![1, 0, 0, 0] ⟨i.val - 7, by omega⟩
  else ((K : ℝ) - (k : ℝ)) / (K : ℝ) * xi i + (k : ℝ) / (K : ℝ) * xf i

/-- `initialize_trajectory`, control part: `U[:, k] = m_k * -g_I`. -/
noncomputable def initial_U (xi xf : Fin 14 → ℝ) (K : ℕ) (k : ℕ) : Fin 3 → ℝ := fun i =>
  (((K : ℝ) - (k : ℝ)) / (K : ℝ) * xi 0 + (k : ℝ) / (K : ℝ) * xf 0) * -g_I i

/-- Counterexample to claim C7: with the program boundary values
(wet mass `3.0` at `x_init 0`, dry mass `2.2` at `x_final 0`) and
`K = 50`, the last trajectory point `k = 49` of the initial guess has
mass `(1/50)*3.0 + (49/50)*2.2 = 2.216`, not the configured final mass
`2.2`: the interpolation divides by `K`, not `K - 1`, so it never
reaches the final boundary values. -/
theorem initial_X_endpoint_ce :
    initial_X (x_init sample0) x_final 50 49 0 ≠ x_final 0 := by
  simp [initial_X, x_init, x_final, m_wet, m_dry]
  norm_num

/-- Claim C7 amended: the initial guess has the identity quaternion at
every point, and on the other coordinates it is the linear interpolation
with weights `(K-k)/K` and `k/K`; at `k = 0` this equals the configured
initial values, but at the last point `k = K-1` it equals
`(1/K) * initial + ((K-1)/K) * final`, not the configured final
values. -/
theorem initial_X_structure (xi xf : Fin 14 → ℝ) (K : ℕ) (hK : 0 < K) (k : ℕ) :
    (initial_X xi xf K k 7 = 1 ∧ initial_X xi xf K k 8 = 0 ∧
     initial_X xi xf K k 9 = 0 ∧ initial_X xi xf K k 10 = 0) ∧
    (∀ i : Fin 14, ¬(7 ≤ i.val ∧ i.val ≤ 10) →
      initial_X xi xf K k i = ((K : ℝ) - (k : ℝ)) / (K : ℝ) * xi i + (k : ℝ) / (K : ℝ) * xf i) ∧
    (∀ i : Fin 14, ¬(7 ≤ i.val ∧ i.val ≤ 10) → initial_X xi xf K 0 i = xi i) ∧
    (∀ i : Fin 14, ¬(7 ≤ i.val ∧ i.val ≤ 10) →
      initial_X xi xf K (K - 1) i
        = (1 / (K : ℝ)) * xi i + (((K : ℝ) - 1) / (K : ℝ)) * xf i) := by
  have hK0 : (K : ℝ) ≠ 0 := Nat.cast_ne_zero.mpr hK.ne'
  refine ⟨⟨rfl, rfl, rfl, rfl⟩, ?_, ?_, ?_⟩
  · intro i hi
    simp only [initial_X, dif_neg hi]
  · intro i hi
    simp [initial_X, hi, hK0]
  · intro i hi
    have hc : ((K - 1 : ℕ) : ℝ) = (K : ℝ) - 1 := by
      rw [Nat.cast_sub hK]
      norm_num
    simp only [initial_X, dif_neg hi, hc]
    field_simp

/-- Witness for the amended claim C7 at concrete inputs. -/
theorem initial_X_structure_witness : initial_X X1 X1 50 0 0 = X1 0 :=
  (initial_X_structure X1 X1 50 (by norm_num) 0).2.2.1 0 (by decide)

/-! ### The Integrator seed buffer and integration span -/

/-- `self.n_x = 14`. -/
def n_x : ℕ := 14

/-- `self.n_u = 3`. -/
def n_u : ℕ := 3

/-- `x_end = m.n_x` (`Integrator.__init__`). -/
def x_end : ℕ := n_x

/-- `A_bar_end = m.n_x * (1 + m.n_x)`. -/
def A_bar_end : ℕ := n_x * (1 + n_x)

/-- `B_bar_end = m.n_x * (1 + m.n_x + m.n_u)`. -/
def B_bar_end : ℕ := n_x * (1 + n_x + n_u)

/-- `C_bar_end = m.n_x * (1 + m.n_x + m.n_u + m.n_u)`. -/
def C_bar_end : ℕ := n_x * (1 + n_x + n_u + n_u)

/-- `S_bar_end = m.n_x * (1 + m.n_x + m.n_u + m.n_u + 1)`. -/
def S_bar_end : ℕ := n_x * (1 + n_x + n_u + n_u + 1)

/-- `z_bar_end = m.n_x * (1 + m.n_x + m.n_u + m.n_u + 2)`. -/
def z_bar_end : ℕ := n_x * (1 + n_x + n_u + n_u + 2)

/-- The dimension of the augmented integration seed
`V0 = np.zeros((m.n_x * (1 + m.n_x + m.n_u + m.n_u + 2),))`. -/
def augDim : ℕ := n_x * (1 + n_x + n_u + n_u + 2)

/-- The seed buffer as built by `Integrator.__init__`: zeros everywhere
except the row-major flattened identity `eye(n_x).reshape(-1)` in the
transition-matrix block. -/
noncomputable def V0_init : Fin augDim → ℝ := fun p =>
  if x_end ≤ p.val ∧ p.val < A_bar_end then
    (if (p.val - x_end) / n_x = (p.val - x_end) % n_x then 1 else 0)
  else 0

/-- The per-interval mutation `self.V0[self.x_ind] = X[:, k]` performed
by `calculate_discretization` on the reused buffer. -/
noncomputable def seed (V : Fin augDim → ℝ) (xk : Fin 14 → ℝ) : Fin augDim → ℝ := fun p =>
  if h : p.val < x_end then xk ⟨p.val, h⟩ else V p

/-- `self.dt = 1. / (K - 1)` (`Integrator.__init__`). -/
noncomputable def dt (K : ℕ) : ℝ := 1 / ((K : ℝ) - 1)

/-- The time pair `(0, self.dt)` handed to `odeint` by
`calculate_discretization`. -/
noncomputable def odeTimeSpan (K : ℕ) : ℝ × ℝ := (0, dt K)

/-- Seeding never changes entries outside the state block. -/
theorem foldl_seed_high (l : List (Fin 14 → ℝ)) (V : Fin augDim → ℝ) (p : Fin augDim)
    (hp : x_end ≤ p.val) : (l.foldl seed V) p = V p := by
  induction l generalizing V with
  | nil => rfl
  | cons a t ih =>
      have hnp : ¬ p.val < x_end := Nat.not_lt.mpr hp
      rw [List.foldl_cons, ih]
      simp [seed, hnp]

/-- Claim C3 amended: the augmented seed vector has dimension
`n_x * (1 + n_x + 2*n_u + 2) = 322`; after any sequence of earlier
seedings of the reused buffer, seeding with the interval state `xk`
leaves a vector that carries `xk` in the state block, the untouched
`__init__` values outside it — the identity matrix in the transition
block and zeros in all the control-influence, duration-sensitivity and
defect blocks — and the integrator is invoked on the time pair
`(0, dt)` with `dt = 1/(K-1)` (not `(0, 1)`). -/
theorem discretization_seed (seeds : List (Fin 14 → ℝ)) (xk : Fin 14 → ℝ) :
    augDim = n_x * (1 + n_x + 2 * n_u + 2) ∧
    augDim = 322 ∧
    (∀ (p : Fin augDim) (h : p.val < n_x),
        seed (seeds.foldl seed V0_init) xk p = xk ⟨p.val, h⟩) ∧
    (∀ p : Fin augDim, n_x ≤ p.val → seed (seeds.foldl seed V0_init) xk p = V0_init p) ∧
    (∀ p : Fin augDim, A_bar_end ≤ p.val → seed (seeds.foldl seed V0_init) xk p = 0) ∧
    (∀ r c : Fin 14,
        seed (seeds.foldl seed V0_init) xk
            ⟨n_x + (r.val * n_x + c.val), by
              have hr := r.isLt
              have hc := c.isLt
              simp only [augDim, n_x, n_u]
              omega⟩
          = if r.val = c.val then 1 else 0) ∧
    (∀ K : ℕ, odeTimeSpan K = (0, 1 / ((K : ℝ) - 1))) := by
  have hhigh : ∀ (p : Fin augDim), n_x ≤ p.val →
      seed (seeds.foldl seed V0_init) xk p = V0_init p := by
    intro p hp
    have hnp : ¬ p.val < x_end := Nat.not_lt.mpr hp
    simp only [seed, dif_neg hnp]
    exact foldl_seed_high seeds V0_init p hp
  refine ⟨by norm_num [augDim, n_x, n_u], by norm_num [augDim, n_x, n_u], ?_, hhigh, ?_, ?_, ?_⟩
  · intro p h
    exact dif_pos h
  · intro p hp
    have h14 : n_x ≤ p.val := le_trans (by norm_num [n_x, A_bar_end]) hp
    rw [hhigh p h14]
    simp only [V0_init]
    rw [if_neg fun h => absurd h.2 (Nat.not_lt.mpr hp)]
  · intro r c
    have hr := r.isLt
    have hc := c.isLt
    rw [hhigh _ (Nat.le_add_right _ _)]
    simp only [V0_init, x_end, A_bar_end, n_x]
    rw [if_pos (by constructor <;> omega)]
    have hd : (14 + (r.val * 14 + c.val) - 14) / 14 = r.val := by omega
    have hm2 : (14 + (r.val * 14 + c.val) - 14) % 14 = c.val := by omega
    simp only [hd, hm2]
  · intro K
    rfl

/-- Witness for the amended claim C3 at concrete inputs. -/
theorem discretization_seed_witness :
    seed (([] : List (Fin 14 → ℝ)).foldl seed V0_init) X1
        ⟨0, by norm_num [augDim, n_x, n_u]⟩
      = X1 ⟨0, by norm_num⟩ :=
  (discretization_seed [] X1).2.2.1 ⟨0, by norm_num [augDim, n_x, n_u]⟩ (by norm_num [n_x])

/-- Counterexample to claim C3 as stated: for the program `K = 50` the
integration runs over `(0, 1/49)`, not from `0` to `1`. -/
theorem odeTimeSpan_ce : odeTimeSpan 50 ≠ ((0 : ℝ), (1 : ℝ)) := by
  intro h
  have h2 := congrArg Prod.snd h
  simp only [odeTimeSpan, dt] at h2
  norm_num at h2

/-! ### The cvxpy constraint list built by `get_constraints`

Vectorized cvxpy constraints (one per trajectory column, `axis=0`
norms) are represented as one constraint per column `k`; `K` is
written as a successor so that the last column `-1` exists. -/

/-- Affine cvxpy expressions over the decision variables `X_v` (14×K)
and `U_v` (3×K); parameter values from the previous iterate enter as
real coefficients. -/
inductive CAffine (K : ℕ) : Type
  | const : ℝ → CAffine K
  | xvar : Fin 14 → Fin K → CAffine K
  | uvar : Fin 3 → Fin K → CAffine K
  | smul : ℝ → CAffine K → CAffine K
  | divc : CAffine K → ℝ → CAffine K
  | add : CAffine K → CAffine K → CAffine K

/-- One cvxpy constraint: equality, scalar inequality, a second-order
cone bound `norm vec ≤ rhs`, or the reversed non-convex form
`norm vec ≥ rhs`, which `get_constraints` never builds. -/
inductive CvxConstraint (K : ℕ) : Type
  | eqC : CAffine K → CAffine K → CvxConstraint K
  | leC : CAffine K → CAffine K → CvxConstraint K
  | normLeC : List (CAffine K) → CAffine K → CvxConstraint K
  | normGeC : List (CAffine K) → CAffine K → CvxConstraint K

/-- Value of an affine expression at an assignment of the variables. -/
noncomputable def evalAff {K : ℕ} (X : Fin 14 → Fin K → ℝ) (U : Fin 3 → Fin K → ℝ) :
    CAffine K → ℝ
  | .const r => r
  | .xvar i k => X i k
  | .uvar i k => U i k
  | .smul r a => r * evalAff X U a
  | .divc a r => evalAff X U a / r
  | .add a b => evalAff X U a + evalAff X U b

/-- Satisfaction of one constraint at an assignment. -/
noncomputable def CHolds {K : ℕ} (X : Fin 14 → Fin K → ℝ) (U : Fin 3 → Fin K → ℝ) :
    CvxConstraint K → Prop
  | .eqC a b => evalAff X U a = evalAff X U b
  | .leC a b => evalAff X U a ≤ evalAff X U b
  | .normLeC v r => Real.sqrt ((v.map fun a => evalAff X U a ^ 2).sum) ≤ evalAff X U r
  | .normGeC v r => evalAff X U r ≤ Real.sqrt ((v.map fun a => evalAff X U a ^ 2).sum)

/-- Satisfaction of a whole constraint list. -/
def SatAll {K : ℕ} (X : Fin 14 → Fin K → ℝ) (U : Fin 3 → Fin K → ℝ)
    (cs : List (CvxConstraint K)) : Prop :=
  ∀ c ∈ cs, CHolds X U c

/-- The first block built by `get_constraints` (boundary conditions):
fixed initial mass, position, velocity and angular rate (rows 7 to 10,
the attitude, are commented out in the source), fixed final
`X_v[1:, -1]`, and zero final lateral thrust `U_v[1:3, -1]`. -/
noncomputable def boundary_constraints (xi xf : Fin 14 → ℝ) (K2 : ℕ) :
    List (CvxConstraint (K2 + 1)) :=
  [.eqC (.xvar 0 0) (.const (xi 0)),
   .eqC (.xvar 1 0) (.const (xi 1)), .eqC (.xvar 2 0) (.const (xi 2)),
   .eqC (.xvar 3 0) (.const (xi 3)),
   .eqC (.xvar 4 0) (.const (xi 4)), .eqC (.xvar 5 0) (.const (xi 5)),
   .eqC (.xvar 6 0) (.const (xi 6)),
   .eqC (.xvar 11 0) (.const (xi 11)), .eqC (.xvar 12 0) (.const (xi 12)),
   .eqC (.xvar 13 0) (.const (xi 13)),
   .eqC (.xvar 1 (Fin.last K2)) (.const (xf 1)),
   .eqC (.xvar 2 (Fin.last K2)) (.const (xf 2)),
   .eqC (.xvar 3 (Fin.last K2)) (.const (xf 3)),
   .eqC (.xvar 4 (Fin.last K2)) (.const (xf 4)),
   .eqC (.xvar 5 (Fin.last K2)) (.const (xf 5)),
   .eqC (.xvar 6 (Fin.last K2)) (.const (xf 6)),
   .eqC (.xvar 7 (Fin.last K2)) (.const (xf 7)),
   .eqC (.xvar 8 (Fin.last K2)) (.const (xf 8)),
   .eqC (.xvar 9 (Fin.last K2)) (.const (xf 9)),
   .eqC (.xvar 10 (Fin.last K2)) (.const (xf 10)),
   .eqC (.xvar 11 (Fin.last K2)) (.const (xf 11)),
   .eqC (.xvar 12 (Fin.last K2)) (.const (xf 12)),
   .eqC (.xvar 13 (Fin.last K2)) (.const (xf 13)),
   .eqC (.uvar 1 (Fin.last K2)) (.const 0),
   .eqC (.uvar 2 (Fin.last K2)) (.const 0)]

/-- The second block built by `get_constraints` (state and control
path constraints, one per column `k`): minimum mass, glideslope,
maximum tilt angle, maximum angular velocity, gimbal cone, and the
upper thrust bound. -/
noncomputable def state_ctrl_constraints (K2 : ℕ) : List (CvxConstraint (K2 + 1)) :=
  ((List.finRange (K2 + 1)).map fun k => .leC (.const m_dry) (.xvar 0 k)) ++
  ((List.finRange (K2 + 1)).map fun k =>
    .normLeC [.xvar 2 k, .xvar 3 k] (.divc (.xvar 1 k) tan_gamma_gs)) ++
  ((List.finRange (K2 + 1)).map fun k =>
    .normLeC [.xvar 9 k, .xvar 10 k] (.const (Real.sqrt ((1 - cos_theta_max) / 2)))) ++
  ((List.finRange (K2 + 1)).map fun k =>
    .normLeC [.xvar 11 k, .xvar 12 k, .xvar 13 k] (.const w_B_max)) ++
  ((List.finRange (K2 + 1)).map fun k =>
    .normLeC [.uvar 1 k, .uvar 2 k] (.smul tan_delta_max (.uvar 0 k))) ++
  ((List.finRange (K2 + 1)).map fun k =>
    .normLeC [.uvar 0 k, .uvar 1 k, .uvar 2 k] (.const T_max))

/-- `cvxpy.norm(U_last_p[:, k])`, the parameter value scaling the
linearized lower thrust bound. -/
noncomputable def unorm {K : ℕ} (Ulast : Fin 3 → Fin K → ℝ) (k : Fin K) : ℝ :=
  Real.sqrt (Ulast 0 k ^ 2 + Ulast 1 k ^ 2 + Ulast 2 k ^ 2)

/-- `U_last_p[:, k] / cvxpy.norm(U_last_p[:, k]) @ U_v[:, k]`: the
support-function linearization of the thrust norm about the previous
iterate. -/
noncomputable def lin_min_thrust {K : ℕ} (Ulast : Fin 3 → Fin K → ℝ) (k : Fin K) : CAffine K :=
  .add (.add (.smul (Ulast 0 k / unorm Ulast k) (.uvar 0 k))
             (.smul (Ulast 1 k / unorm Ulast k) (.uvar 1 k)))
       (.smul (Ulast 2 k / unorm Ulast k) (.uvar 2 k))

/-- The third block built by `get_constraints`: the linearized lower
thrust constraint `T_min ≤ rhs_k` for every column. -/
noncomputable def lower_thrust_constraints (K2 : ℕ) (Ulast : Fin 3 → Fin (K2 + 1) → ℝ) :
    List (CvxConstraint (K2 + 1)) :=
  (List.finRange (K2 + 1)).map fun k => .leC (.const T_min) (lin_min_thrust Ulast k)

/-- `Rocket_Model_6DoF.get_constraints`: the three blocks in source
order. -/
noncomputable def get_constraints (xi xf : Fin 14 → ℝ) (K2 : ℕ)
    (Ulast : Fin 3 → Fin (K2 + 1) → ℝ) : List (CvxConstraint (K2 + 1)) :=
  boundary_constraints xi xf K2 ++ state_ctrl_constraints K2 ++
    lower_thrust_constraints K2 Ulast

/-- Whether a constraint is a norm lower bound. -/
def isNormGe {K : ℕ} : CvxConstraint K → Bool
  | .normGeC _ _ => true
  | _ => false

/-- Claim C4: for every step `k` the constraint list contains the exact
second-order-cone upper bound `norm u_k ≤ T_max` and, for the minimum
thrust, only the linearized support-function bound
`T_min ≤ (u_prev_k / norm u_prev_k) · u_k` about the previous
iterate's control at the same step; their satisfaction semantics are
exactly those inequalities, and no constraint in the list is a norm
lower bound — the exact non-convex bound `norm u_k ≥ T_min` is never
imposed. -/
theorem thrust_constraints_spec (xi xf : Fin 14 → ℝ) (K2 : ℕ)
    (Ulast : Fin 3 → Fin (K2 + 1) → ℝ) (k : Fin (K2 + 1)) :
    (CvxConstraint.normLeC [.uvar 0 k, .uvar 1 k, .uvar 2 k] (.const T_max)
        ∈ get_constraints xi xf K2 Ulast) ∧
    (CvxConstraint.leC (.const T_min) (lin_min_thrust Ulast k)
        ∈ get_constraints xi xf K2 Ulast) ∧
    (∀ X U, CHolds X U
        (CvxConstraint.normLeC [CAffine.uvar 0 k, CAffine.uvar 1 k, CAffine.uvar 2 k]
          (CAffine.const T_max)) ↔
        Real.sqrt (U 0 k ^ 2 + (U 1 k ^ 2 + U 2 k ^ 2)) ≤ T_max) ∧
    (∀ X U, CHolds X U
        (CvxConstraint.leC (CAffine.const T_min) (lin_min_thrust Ulast k)) ↔
        T_min ≤ Ulast 0 k / unorm Ulast k * U 0 k + Ulast 1 k / unorm Ulast k * U 1 k
              + Ulast 2 k / unorm Ulast k * U 2 k) ∧
    ((get_constraints xi xf K2 Ulast).all fun c => !isNormGe c) = true := by
  refine ⟨?_, ?_, ?_, ?_, ?_⟩
  · refine List.mem_append_left _ (List.mem_append_right _ ?_)
    exact List.mem_append_right _ (List.mem_map_of_mem _ (List.mem_finRange k))
  · exact List.mem_append_right _ (List.mem_map_of_mem _ (List.mem_finRange k))
  · intro X U
    simp [CHolds, evalAff]
  · intro X U
    simp [CHolds, evalAff, lin_min_thrust]
  · simp [get_constraints, boundary_constraints, state_ctrl_constraints,
      lower_thrust_constraints, isNormGe, List.all_append]

/-- Claim C6: at every trajectory point `k` the constraint list
contains the minimum mass bound, the glideslope cone, the tilt proxy
on the two quaternion components `q2, q3`, the angular-rate bound and
the gimbal cone, with exactly the claimed satisfaction semantics. -/
theorem state_constraints_spec (xi xf : Fin 14 → ℝ) (K2 : ℕ)
    (Ulast : Fin 3 → Fin (K2 + 1) → ℝ) (k : Fin (K2 + 1)) :
    (CvxConstraint.leC (.const m_dry) (.xvar 0 k) ∈ get_constraints xi xf K2 Ulast) ∧
    (CvxConstraint.normLeC [.xvar 2 k, .xvar 3 k] (.divc (.xvar 1 k) tan_gamma_gs)
        ∈ get_constraints xi xf K2 Ulast) ∧
    (CvxConstraint.normLeC [.xvar 9 k, .xvar 10 k]
        (.const (Real.sqrt ((1 - cos_theta_max) / 2))) ∈ get_constraints xi xf K2 Ulast) ∧
    (CvxConstraint.normLeC [.xvar 11 k, .xvar 12 k, .xvar 13 k] (.const w_B_max)
        ∈ get_constraints xi xf K2 Ulast) ∧
    (CvxConstraint.normLeC [.uvar 1 k, .uvar 2 k] (.smul tan_delta_max (.uvar 0 k))
        ∈ get_constraints xi xf K2 Ulast) ∧
    (∀ X U,
      (CHolds X U (CvxConstraint.leC (CAffine.const m_dry) (CAffine.xvar 0 k)) ↔
        m_dry ≤ X 0 k) ∧
      (CHolds X U (CvxConstraint.normLeC [CAffine.xvar 2 k, CAffine.xvar 3 k]
          (CAffine.divc (CAffine.xvar 1 k) tan_gamma_gs)) ↔
        Real.sqrt (X 2 k ^ 2 + X 3 k ^ 2) ≤ X 1 k / tan_gamma_gs) ∧
      (CHolds X U (CvxConstraint.normLeC [CAffine.xvar 9 k, CAffine.xvar 10 k]
          (CAffine.const (Real.sqrt ((1 - cos_theta_max) / 2)))) ↔
        Real.sqrt (X 9 k ^ 2 + X 10 k ^ 2) ≤ Real.sqrt ((1 - cos_theta_max) / 2)) ∧
      (CHolds X U (CvxConstraint.normLeC
          [CAffine.xvar 11 k, CAffine.xvar 12 k, CAffine.xvar 13 k]
          (CAffine.const w_B_max)) ↔
        Real.sqrt (X 11 k ^ 2 + (X 12 k ^ 2 + X 13 k ^ 2)) ≤ w_B_max) ∧
      (CHolds X U (CvxConstraint.normLeC [CAffine.uvar 1 k, CAffine.uvar 2 k]
          (CAffine.smul tan_delta_max (CAffine.uvar 0 k))) ↔
        Real.sqrt (U 1 k ^ 2 + U 2 k ^ 2) ≤ tan_delta_max * U 0 k)) := by
  refine ⟨?_, ?_, ?_, ?_, ?_, ?_⟩
  · refine List.mem_append_left _ (List.mem_append_right _ ?_)
    exact List.mem_append_left _ (List.mem_append_left _ (List.mem_append_left _
      (List.mem_append_left _ (List.mem_append_left _
        (List.mem_map_of_mem _ (List.mem_finRange k))))))
  · refine List.mem_append_left _ (List.mem_append_right _ ?_)
    exact List.mem_append_left _ (List.mem_append_left _ (List.mem_append_left _
      (List.mem_append_left _ (List.mem_append_right _
        (List.mem_map_of_mem _ (List.mem_finRange k))))))
  · refine List.mem_append_left _ (List.mem_append_right _ ?_)
    exact List.mem_append_left _ (List.mem_append_left _ (List.mem_append_left _
      (List.mem_append_right _ (List.mem_map_of_mem _ (List.mem_finRange k)))))
  · refine List.mem_append_left _ (List.mem_append_right _ ?_)
    exact List.mem_append_left _ (List.mem_append_left _
      (List.mem_append_right _ (List.mem_map_of_mem _ (List.mem_finRange k))))
  · refine List.mem_append_left _ (List.mem_append_right _ ?_)
    exact List.mem_append_left _
      (List.mem_append_right _ (List.mem_map_of_mem _ (List.mem_finRange k)))
  · intro X U
    refine ⟨?_, ?_, ?_, ?_, ?_⟩ <;> simp [CHolds, evalAff]

/-- Satisfaction of the boundary block, unfolded into the pinned
coordinates. -/
theorem boundary_sat_iff (xi xf : Fin 14 → ℝ) (K2 : ℕ)
    (X : Fin 14 → Fin (K2 + 1) → ℝ) (U : Fin 3 → Fin (K2 + 1) → ℝ) :
    SatAll X U (boundary_constraints xi xf K2) ↔
      (X 0 0 = xi 0 ∧ X 1 0 = xi 1 ∧ X 2 0 = xi 2 ∧ X 3 0 = xi 3 ∧
       X 4 0 = xi 4 ∧ X 5 0 = xi 5 ∧ X 6 0 = xi 6 ∧
       X 11 0 = xi 11 ∧ X 12 0 = xi 12 ∧ X 13 0 = xi 13 ∧
       X 1 (Fin.last K2) = xf 1 ∧ X 2 (Fin.last K2) = xf 2 ∧ X 3 (Fin.last K2) = xf 3 ∧
       X 4 (Fin.last K2) = xf 4 ∧ X 5 (Fin.last K2) = xf 5 ∧ X 6 (Fin.last K2) = xf 6 ∧
       X 7 (Fin.last K2) = xf 7 ∧ X 8 (Fin.last K2) = xf 8 ∧ X 9 (Fin.last K2) = xf 9 ∧
       X 10 (Fin.last K2) = xf 10 ∧
       X 11 (Fin.last K2) = xf 11 ∧ X 12 (Fin.last K2) = xf 12 ∧
       X 13 (Fin.last K2) = xf 13 ∧
       U 1 (Fin.last K2) = 0 ∧ U 2 (Fin.last K2) = 0) := by
  unfold SatAll boundary_constraints
  simp [List.forall_mem_cons, CHolds, evalAff]

/-- Claim C5: satisfaction of the boundary block pins exactly the
first state's mass, position, velocity and angular rate to the
configured initial values, the last state's position, velocity,
attitude quaternion and angular rate to the configured final values,
and the last control's two lateral components to zero; the first
state's attitude quaternion and the last state's mass are free — for
any prescribed values there is a satisfying assignment taking them. -/
theorem boundary_constraints_spec (xi xf : Fin 14 → ℝ) (K3 : ℕ)
    (X : Fin 14 → Fin (K3 + 2) → ℝ) (U : Fin 3 → Fin (K3 + 2) → ℝ) :
    (SatAll X U (boundary_constraints xi xf (K3 + 1)) ↔
      (X 0 0 = xi 0 ∧ X 1 0 = xi 1 ∧ X 2 0 = xi 2 ∧ X 3 0 = xi 3 ∧
       X 4 0 = xi 4 ∧ X 5 0 = xi 5 ∧ X 6 0 = xi 6 ∧
       X 11 0 = xi 11 ∧ X 12 0 = xi 12 ∧ X 13 0 = xi 13 ∧
       X 1 (Fin.last (K3 + 1)) = xf 1 ∧ X 2 (Fin.last (K3 + 1)) = xf 2 ∧
       X 3 (Fin.last (K3 + 1)) = xf 3 ∧
       X 4 (Fin.last (K3 + 1)) = xf 4 ∧ X 5 (Fin.last (K3 + 1)) = xf 5 ∧
       X 6 (Fin.last (K3 + 1)) = xf 6 ∧
       X 7 (Fin.last (K3 + 1)) = xf 7 ∧ X 8 (Fin.last (K3 + 1)) = xf 8 ∧
       X 9 (Fin.last (K3 + 1)) = xf 9 ∧ X 10 (Fin.last (K3 + 1)) = xf 10 ∧
       X 11 (Fin.last (K3 + 1)) = xf 11 ∧ X 12 (Fin.last (K3 + 1)) = xf 12 ∧
       X 13 (Fin.last (K3 + 1)) = xf 13 ∧
       U 1 (Fin.last (K3 + 1)) = 0 ∧ U 2 (Fin.last (K3 + 1)) = 0)) ∧
    (∀ q0 q1 q2 q3 mlast : ℝ, ∃ X2 U2,
        SatAll X2 U2 (boundary_constraints xi xf (K3 + 1)) ∧
        X2 7 0 = q0 ∧ X2 8 0 = q1 ∧ X2 9 0 = q2 ∧ X2 10 0 = q3 ∧
        X2 0 (Fin.last (K3 + 1)) = mlast) := by
  have hlast : (Fin.last (K3 + 1) : Fin (K3 + 2)) ≠ 0 := by
    intro h
    have h2 := congrArg Fin.val h
    simp [Fin.last] at h2
  constructor
  · exact boundary_sat_iff xi xf (K3 + 1) X U
  · intro q0 q1 q2 q3 mlast
    refine ⟨fun i k =>
        if k = 0 then
          (if i = 7 then q0 else if i = 8 then q1 else if i = 9 then q2 else
            if i = 10 then q3 else xi i)
        else (if i = 0 then mlast else xf i),
      fun _ _ => 0, ?_, ?_, ?_, ?_, ?_, ?_⟩
    · rw [boundary_sat_iff]
      simp [hlast]
    · simp
    · simp
    · simp
    · simp
    · simp [hlast]

end RocketLanding
